import Mathlib

/-!
Server-side transport creation: `src/svc_generic.c`.

A shallow embedding of `svc_create`, `svc_tp_create` and `svc_tli_create`.

The three functions are sequential C code whose behaviour is decided by the
results of calls into the operating system and into other parts of the
library (`bind`, `listen`, `svc_vc_create`, `svc_reg`, `mem_alloc`, ...).
Those callees are not part of the file; they are the fields of `Env`.  Every
callee receives the list of events that happened so far, so its result may
depend on the whole history (a call may fail first and succeed later).

The state threaded through the code is a `World`: the function-static
linked list `xprtlist` of `svc_create` and the chronological list of the
external calls made so far.
-/

namespace SvcGeneric

/-! ## Data model -/

/-- The fields of `struct netconfig` that the file reads. -/
structure netconfig where
  nc_netid : String
  nc_protofmly : String
  nc_device : String
deriving DecidableEq, Repr

/-- The record `struct __rpc_sockinfo` filled in by `__rpc_nconf2sockinfo`
and `__rpc_fd2sockinfo`. -/
structure __rpc_sockinfo where
  si_af : Int
  si_proto : Int
  si_socktype : Int
  si_alen : Nat
deriving DecidableEq, Repr

/-- A socket address as handed to `bind`: the family and the remaining bytes. -/
structure sockaddr where
  sa_family : Int
  sa_data : List Nat
deriving DecidableEq, Repr

/-- The record `struct t_bind`: `addr` stands for the address that
`addr.buf` points to, `qlen` is the `unsigned` backlog. -/
structure t_bind where
  addr : sockaddr
  qlen : Nat
deriving DecidableEq, Repr

/-- The fields of `SVCXPRT` that the file reads or writes.  `xp_addr` is the
address of the object: two handles are the same object exactly when their
`xp_addr` agree.  A null `char *` is `none`. -/
structure SVCXPRT where
  xp_addr : Nat
  xp_fd : Int
  xp_si_type : Int
  xp_netid : Option String
  xp_tp : Option String
deriving DecidableEq, Repr

/-- One external call made by the code, with its arguments and, where the
code can see it, its result. -/
inductive Ev where
  | setconf (nettype : String) (ok : Bool)
  | getconf (nconf : Option netconfig)
  | endconf
  | mutex_lock
  | mutex_unlock
  | warnx (msg : String)
  | rpcb_unset (prognum versnum : Nat) (nconf : netconfig)
  | svc_reg (xprt : SVCXPRT) (prognum versnum dispatch : Nat) (nconf : netconfig) (r : Bool)
  | mem_alloc (ok : Bool)
  | nconf2fd (nconf : netconfig) (fd : Int)
  | nconf2sockinfo (nconf : netconfig)
  | fd2sockinfo (fd : Int) (ok : Bool)
  | sockisbound (fd : Int) (r : Bool)
  | bindresvport (fd : Int) (r : Int)
  | bind (fd : Int) (addr : sockaddr) (alen : Nat) (r : Int)
  | listen (fd : Int) (backlog : Int) (r : Int)
  | getpeername (fd : Int) (r : Int)
  | svc_fd_create (fd : Int) (sendsz recvsz : Nat) (r : Option SVCXPRT)
  | svc_vc_create (fd : Int) (sendsz recvsz : Nat) (r : Option SVCXPRT)
  | svc_dg_create (fd : Int) (sendsz recvsz : Nat) (r : Option SVCXPRT)
  | rpc_strdup (s : String) (ok : Bool)
  | close (fd : Int)
  | destroy (xprt : SVCXPRT)
deriving DecidableEq, Repr

/-- What the file takes from outside: the constants of the headers and the
callees.  Each callee is given the events so far.

* `RPC_ANYFD`, `SOCK_STREAM`, `SOCK_DGRAM`, `SOMAXCONN` are the constants of
  `rpc/svc.h` and `sys/socket.h`.
* `__rpc_setconf` returns the providers that `__rpc_getconf` will yield one
  after the other, or `none` for a null handle.
* `__rpc_nconf2sockinfo` gives the content of `si` after the call (its
  return value is not looked at by the code).
* `__rpc_fd2sockinfo` gives `none` when it returns 0.
* `rpc_strdup` tells whether the copy could be allocated.
* `mem_alloc` tells whether the allocation succeeded.
* the three transport constructors give `none` for a null handle. -/
structure Env where
  RPC_ANYFD : Int
  SOCK_STREAM : Int
  SOCK_DGRAM : Int
  SOMAXCONN : Int
  __rpc_setconf : List Ev → String → Option (List netconfig)
  svc_reg : List Ev → SVCXPRT → Nat → Nat → Nat → netconfig → Bool
  mem_alloc : List Ev → Bool
  __rpc_nconf2fd : List Ev → netconfig → Int
  __rpc_nconf2sockinfo : List Ev → netconfig → __rpc_sockinfo
  __rpc_fd2sockinfo : List Ev → Int → Option __rpc_sockinfo
  __rpc_sockisbound : List Ev → Int → Bool
  bindresvport : List Ev → Int → Int
  bind : List Ev → Int → sockaddr → Nat → Int
  listen : List Ev → Int → Int → Int
  getpeername : List Ev → Int → Int
  svc_fd_create : List Ev → Int → Nat → Nat → Option SVCXPRT
  svc_vc_create : List Ev → Int → Nat → Nat → Option SVCXPRT
  svc_dg_create : List Ev → Int → Nat → Nat → Option SVCXPRT
  __rpc_socktype2seman : Int → Int
  rpc_strdup : List Ev → String → Bool

/-- The state the code runs in: the static list `xprtlist` of `svc_create`
(head first) and the external calls made so far (oldest first). -/
structure World where
  xprtlist : List SVCXPRT
  trace : List Ev
deriving DecidableEq, Repr

/-- Record one external call. -/
def World.emit (w : World) (e : Ev) : World :=
  { w with trace := w.trace ++ [e] }

/-- The conversion `(int)` of a 32 bit `unsigned` value. -/
def int_of_unsigned (n : Nat) : Int :=
  if n % 2 ^ 32 < 2 ^ 31 then Int.ofNat (n % 2 ^ 32) else Int.ofNat (n % 2 ^ 32) - 2 ^ 32

/-! ## `svc_tli_create` -/

/-- The code after the label `freedata` (lines 296-304), for the values of
`madefd`, `fd` and `xprt` at the jump. -/
def freedata (E : Env) (w : World) (madefd : Bool) (fd : Int) (xprt : Option SVCXPRT) :
    Option SVCXPRT × World :=
  let w1 := if madefd then w.emit (Ev.close fd) else w
  match xprt with
  | some x =>
    let x1 := if !madefd then { x with xp_fd := E.RPC_ANYFD } else x
    (none, w1.emit (Ev.destroy x1))
  | none => (none, w1)

/-- The copy `rpc_strdup(s)`: the string, or null when the copy fails. -/
def strdup (E : Env) (w : World) (s : String) : Option String × World :=
  let ok := E.rpc_strdup w.trace s
  (if ok then some s else none, w.emit (Ev.rpc_strdup s ok))

/-- The code from the test `if (xprt == NULL)` to the successful return
(lines 280-294), for the value of `xprt` left by the `switch`: a null handle
jumps to `freedata`; otherwise the type of service is filled in and, with a
provider, the copies of its `nc_netid` and `nc_device`. -/
def svc_tli_done (E : Env) (w : World) (fd : Int) (nconf : Option netconfig)
    (madefd : Bool) (si : __rpc_sockinfo) (xprt : Option SVCXPRT) :
    Option SVCXPRT × World :=
  match xprt with
  | none => freedata E w madefd fd none
  | some x =>
    let x1 := { x with xp_si_type := E.__rpc_socktype2seman si.si_socktype }
    match nconf with
    | some nc =>
      let r1 := strdup E w nc.nc_netid
      let r2 := strdup E r1.2 nc.nc_device
      (some { x1 with xp_netid := r1.1, xp_tp := r2.1 }, r2.2)
    | none => (some x1, w)

/-- The transport specific part: the `switch` on `si.si_socktype` and what
follows it (lines 253-294). -/
def svc_tli_xprt (E : Env) (w : World) (fd : Int) (nconf : Option netconfig)
    (sendsz recvsz : Nat) (madefd : Bool) (si : __rpc_sockinfo) :
    Option SVCXPRT × World :=
  if si.si_socktype = E.SOCK_STREAM then
    let r := E.getpeername w.trace fd
    let w1 := w.emit (Ev.getpeername fd r)
    if r = 0 then
      let xprt := E.svc_fd_create w1.trace fd sendsz recvsz
      svc_tli_done E (w1.emit (Ev.svc_fd_create fd sendsz recvsz xprt)) fd nconf madefd si xprt
    else
      let xprt := E.svc_vc_create w1.trace fd sendsz recvsz
      svc_tli_done E (w1.emit (Ev.svc_vc_create fd sendsz recvsz xprt)) fd nconf madefd si xprt
  else if si.si_socktype = E.SOCK_DGRAM then
    let xprt := E.svc_dg_create w.trace fd sendsz recvsz
    svc_tli_done E (w.emit (Ev.svc_dg_create fd sendsz recvsz xprt)) fd nconf madefd si xprt
  else
    freedata E (w.emit (Ev.warnx "svc_tli_create: bad service type")) madefd fd none

/-- The call `listen(fd, backlog)`; its result is recorded and dropped, as
in the two statements of lines 236 and 246. -/
def do_listen (E : Env) (w : World) (fd : Int) (backlog : Int) : World :=
  w.emit (Ev.listen fd backlog (E.listen w.trace fd backlog))

/-- The body of `if (madefd || !__rpc_sockisbound(fd))` (lines 224-247)
and the rest of the function. -/
def svc_tli_dobind (E : Env) (w : World) (fd : Int) (nconf : Option netconfig)
    (bindaddr : Option t_bind) (sendsz recvsz : Nat) (madefd : Bool)
    (si : __rpc_sockinfo) : Option SVCXPRT × World :=
  match bindaddr with
  | none =>
    let r := E.bindresvport w.trace fd
    let w1 := w.emit (Ev.bindresvport fd r)
    if r < 0 then
      let ss : sockaddr := { sa_family := si.si_af, sa_data := [] }
      let r2 := E.bind w1.trace fd ss si.si_alen
      let w2 := w1.emit (Ev.bind fd ss si.si_alen r2)
      if r2 < 0 then
        freedata E (w2.emit (Ev.warnx "svc_tli_create: could not bind to anonymous port"))
          madefd fd none
      else
        svc_tli_xprt E (do_listen E w2 fd E.SOMAXCONN) fd nconf sendsz recvsz madefd si
    else
      svc_tli_xprt E (do_listen E w1 fd E.SOMAXCONN) fd nconf sendsz recvsz madefd si
  | some ba =>
    let r := E.bind w.trace fd ba.addr si.si_alen
    let w1 := w.emit (Ev.bind fd ba.addr si.si_alen r)
    if r < 0 then
      freedata E (w1.emit (Ev.warnx "svc_tli_create: could not bind to requested address"))
        madefd fd none
    else
      svc_tli_xprt E (do_listen E w1 fd (int_of_unsigned ba.qlen)) fd nconf sendsz recvsz
        madefd si

/-- The part "If the fd is unbound, try to bind it" and the rest of the
function (lines 223-304), for the values of `fd`, `madefd` and `si` reached
at line 219.  `__rpc_sockisbound` is only called when `madefd` is false. -/
def svc_tli_bind (E : Env) (w : World) (fd : Int) (nconf : Option netconfig)
    (bindaddr : Option t_bind) (sendsz recvsz : Nat) (madefd : Bool)
    (si : __rpc_sockinfo) : Option SVCXPRT × World :=
  if madefd then
    svc_tli_dobind E w fd nconf bindaddr sendsz recvsz madefd si
  else
    let b := E.__rpc_sockisbound w.trace fd
    let w1 := w.emit (Ev.sockisbound fd b)
    if b = false then
      svc_tli_dobind E w1 fd nconf bindaddr sendsz recvsz madefd si
    else
      svc_tli_xprt E w1 fd nconf sendsz recvsz madefd si

/-- The function `svc_tli_create(fd, nconf, bindaddr, sendsz, recvsz)`:
a null `nconf` or `bindaddr` is `none`; the result is the handle or `none`
for null. -/
def svc_tli_create (E : Env) (w : World) (fd : Int) (nconf : Option netconfig)
    (bindaddr : Option t_bind) (sendsz recvsz : Nat) : Option SVCXPRT × World :=
  if fd = E.RPC_ANYFD then
    match nconf with
    | none => (none, w.emit (Ev.warnx "svc_tli_create: invalid netconfig"))
    | some nc =>
      let fd1 := E.__rpc_nconf2fd w.trace nc
      let w1 := w.emit (Ev.nconf2fd nc fd1)
      if fd1 = -1 then
        (none, w1.emit (Ev.warnx "svc_tli_create: could not open connection"))
      else
        let si := E.__rpc_nconf2sockinfo w1.trace nc
        let w2 := w1.emit (Ev.nconf2sockinfo nc)
        svc_tli_bind E w2 fd1 nconf bindaddr sendsz recvsz true si
  else
    match E.__rpc_fd2sockinfo w.trace fd with
    | none =>
      (none, (w.emit (Ev.fd2sockinfo fd false)).emit
        (Ev.warnx "svc_tli_create: could not get transport information"))
    | some si =>
      svc_tli_bind E (w.emit (Ev.fd2sockinfo fd true)) fd nconf bindaddr sendsz recvsz false si

/-! ## `svc_tp_create` -/

/-- The function `svc_tp_create(dispatch, prognum, versnum, nconf)`. -/
def svc_tp_create (E : Env) (w : World) (dispatch prognum versnum : Nat)
    (nconf : Option netconfig) : Option SVCXPRT × World :=
  match nconf with
  | none => (none, w.emit (Ev.warnx "svc_tp_create: invalid netconfig structure"))
  | some nc =>
    match svc_tli_create E w E.RPC_ANYFD (some nc) none 0 0 with
    | (none, w1) => (none, w1)
    | (some xprt, w1) =>
      let w2 := w1.emit (Ev.rpcb_unset prognum versnum nc)
      let ok := E.svc_reg w2.trace xprt prognum versnum dispatch nc
      let w3 := w2.emit (Ev.svc_reg xprt prognum versnum dispatch nc ok)
      if ok = false then
        (none, (w3.emit (Ev.warnx "svc_tp_create: Could not register")).emit (Ev.destroy xprt))
      else
        (some xprt, w3)

/-! ## `svc_create` -/

/-- The scan `for (l = xprtlist; l; l = l->next)` with its test
`strcmp(l->xprt->xp_netid, nconf->nc_netid) == 0`: the first handle of the
list whose `xp_netid` equals the given one.  Every handle the code puts on
the list was given its `xp_netid` from a provider; a handle without one
compares unequal here. -/
def xlist_find (l : List SVCXPRT) (netid : String) : Option SVCXPRT :=
  l.find? (fun x => decide (x.xp_netid = some netid))

/-- The `while ((nconf = __rpc_getconf(handle)) != NULL)` loop of
`svc_create` together with the code after it, for the providers still to
come and the current value of `num`.  The result is the value `svc_create`
returns.  (`num` is an `int`; it counts providers and stays far from
overflow.) -/
def svc_create_loop (E : Env) (dispatch prognum versnum : Nat) :
    List netconfig → World → Nat → Nat × World
  | [], w, num => (num, (w.emit (Ev.getconf none)).emit Ev.endconf)
  | nc :: rest, w, num =>
    let w1 := (w.emit (Ev.getconf (some nc))).emit Ev.mutex_lock
    match xlist_find w1.xprtlist nc.nc_netid with
    | some x =>
      let w2 := w1.emit (Ev.rpcb_unset prognum versnum nc)
      let ok := E.svc_reg w2.trace x prognum versnum dispatch nc
      let w3 := w2.emit (Ev.svc_reg x prognum versnum dispatch nc ok)
      if ok = false then
        svc_create_loop E dispatch prognum versnum rest
          ((w3.emit (Ev.warnx "svc_create: could not register")).emit Ev.mutex_unlock) num
      else
        svc_create_loop E dispatch prognum versnum rest (w3.emit Ev.mutex_unlock) (num + 1)
    | none =>
      match svc_tp_create E w1 dispatch prognum versnum (some nc) with
      | (some xprt, w2) =>
        let ok := E.mem_alloc w2.trace
        let w3 := w2.emit (Ev.mem_alloc ok)
        if ok = false then
          (0, (w3.emit (Ev.warnx "svc_create: no memory")).emit Ev.mutex_unlock)
        else
          svc_create_loop E dispatch prognum versnum rest
            ({ w3 with xprtlist := xprt :: w3.xprtlist }.emit Ev.mutex_unlock) (num + 1)
      | (none, w2) =>
        svc_create_loop E dispatch prognum versnum rest (w2.emit Ev.mutex_unlock) num

/-- The function `svc_create(dispatch, prognum, versnum, nettype)`. -/
def svc_create (E : Env) (w : World) (dispatch prognum versnum : Nat) (nettype : String) :
    Nat × World :=
  match E.__rpc_setconf w.trace nettype with
  | none =>
    (0, (w.emit (Ev.setconf nettype false)).emit (Ev.warnx "svc_create: unknown protocol"))
  | some ncs =>
    svc_create_loop E dispatch prognum versnum ncs (w.emit (Ev.setconf nettype true)) 0

/-! ## Observations on traces -/

/-- The events a piece of code added when it took the world from `w` to `w1`. -/
def newEvents (w w1 : World) : List Ev :=
  w1.trace.drop w.trace.length

/-- Modelled from the spec: `SVC_DESTROY` is a macro of `rpc/svc.h`, which is
not part of the sources.  Following the spec ("Destruction closes the
descriptor only if ...") and the comment at line 300 ("so that svc_destroy
doesnt close fd"), destroying a handle closes the descriptor in its `xp_fd`.
So descriptor `fd` is closed by `close(fd)` and by the destruction of a
handle whose `xp_fd` is `fd`. -/
def closesFd (fd : Int) : Ev → Bool
  | Ev.close d => decide (d = fd)
  | Ev.destroy x => decide (x.xp_fd = fd)
  | _ => false

/-- How often the events close descriptor `fd`. -/
def closeCount (fd : Int) (evs : List Ev) : Nat := evs.countP (closesFd fd)

/-- The number of closes of descriptor `d` that the failure exit makes for
the given `madefd` and `fd`. -/
def ownCloses (madefd : Bool) (fd d : Int) : Nat := if madefd = true ∧ fd = d then 1 else 0

/-- The kinds of event the transport specific part can add. -/
def xprtEv : Ev → Bool
  | Ev.getpeername _ _ => true
  | Ev.svc_fd_create _ _ _ _ => true
  | Ev.svc_vc_create _ _ _ _ => true
  | Ev.svc_dg_create _ _ _ _ => true
  | Ev.rpc_strdup _ _ => true
  | Ev.warnx _ => true
  | Ev.close _ => true
  | _ => false

/-- The kinds of event one call of `svc_tli_create` for `nconf` can add. -/
def tliEv (nconf : Option netconfig) : Ev → Bool
  | Ev.nconf2fd nc _ => decide (nconf = some nc)
  | Ev.nconf2sockinfo _ => true
  | Ev.fd2sockinfo _ _ => true
  | Ev.sockisbound _ _ => true
  | Ev.bindresvport _ _ => true
  | Ev.bind _ _ _ _ => true
  | Ev.listen _ _ _ => true
  | e => xprtEv e

/-- A call of `listen`. -/
def isListen : Ev → Bool
  | Ev.listen _ _ _ => true
  | _ => false

/-- A call of `listen` that succeeded. -/
def isListenOk : Ev → Bool
  | Ev.listen _ _ r => decide (0 ≤ r)
  | _ => false

/-- A call of `bindresvport` or `bind` that succeeded. -/
def isBindOk : Ev → Bool
  | Ev.bindresvport _ r => decide (0 ≤ r)
  | Ev.bind _ _ _ r => decide (0 ≤ r)
  | _ => false

/-- A call of one of the three transport constructors. -/
def isCtor : Ev → Bool
  | Ev.svc_fd_create _ _ _ _ => true
  | Ev.svc_vc_create _ _ _ _ => true
  | Ev.svc_dg_create _ _ _ _ => true
  | _ => false

/-- A call of `SVC_DESTROY`. -/
def isDestroy : Ev → Bool
  | Ev.destroy _ => true
  | _ => false

/-- One of the three transport constructors was called on `fd` with the
given sizes and returned the handle `x0`. -/
def builtOn (fd : Int) (sendsz recvsz : Nat) (x0 : SVCXPRT) (evs : List Ev) : Prop :=
  Ev.svc_fd_create fd sendsz recvsz (some x0) ∈ evs ∨
  Ev.svc_vc_create fd sendsz recvsz (some x0) ∈ evs ∨
  Ev.svc_dg_create fd sendsz recvsz (some x0) ∈ evs

/-- What a handle `x` returned for `RPC_ANYFD` without bind address tells
about the events of the call: a reserved-port bind or the wildcard bind on
`fd` succeeded, `listen(fd, backlog)` was called, and `x` is the object a
constructor made on `fd`. -/
def BoundAndListenCalled (fd : Int) (backlog : Int) (si : __rpc_sockinfo) (sendsz recvsz : Nat)
    (x : SVCXPRT) (evs : List Ev) : Prop :=
  ((∃ r, 0 ≤ r ∧ Ev.bindresvport fd r ∈ evs) ∨
    (∃ r, 0 ≤ r ∧ Ev.bind fd { sa_family := si.si_af, sa_data := [] } si.si_alen r ∈ evs)) ∧
  (∃ r, Ev.listen fd backlog r ∈ evs) ∧
  (∃ x0, x.xp_addr = x0.xp_addr ∧ x.xp_fd = x0.xp_fd ∧ builtOn fd sendsz recvsz x0 evs)

/-- The only transport constructor called is `svc_fd_create(fd, sendsz,
recvsz)`, and a returned handle `r` is the object that call returned, with
only `xp_si_type`, `xp_netid` and `xp_tp` written. -/
def FromFdCreate (fd : Int) (sendsz recvsz : Nat) (r : Option SVCXPRT) (evs : List Ev) : Prop :=
  (∀ e ∈ evs, isCtor e = true → ∃ c, e = Ev.svc_fd_create fd sendsz recvsz c) ∧
  (∀ y, r = some y → ∃ x, Ev.svc_fd_create fd sendsz recvsz (some x) ∈ evs ∧
    y = { x with xp_si_type := y.xp_si_type, xp_netid := y.xp_netid, xp_tp := y.xp_tp })

/-- An event showing that a step did not succeed: a diagnostic was emitted,
a registration was refused, an allocation or a copy failed, or a transport
constructor returned null.  (Every failing open, metadata query and bind is
followed by a diagnostic.) -/
def failedStep : Ev → Bool
  | Ev.warnx _ => true
  | Ev.svc_reg _ _ _ _ _ r => !r
  | Ev.mem_alloc ok => !ok
  | Ev.svc_fd_create _ _ _ r => r.isNone
  | Ev.svc_vc_create _ _ _ r => r.isNone
  | Ev.svc_dg_create _ _ _ r => r.isNone
  | Ev.rpc_strdup _ ok => !ok
  | _ => false

/-- The result is a handle, and it carries the identity of the provider if
there is one. -/
def HandleFor (nconf : Option netconfig) (r : Option SVCXPRT) : Prop :=
  ∃ x, r = some x ∧ ∀ nc, nconf = some nc → x.xp_netid = some nc.nc_netid

/-- The handle provisioning hands out for a provider carries the network
identity of that provider. -/
def CarriesNetid (E : Env) : Prop :=
  ∀ (w : World) (nc : netconfig) (x : SVCXPRT),
    (svc_tli_create E w E.RPC_ANYFD (some nc) none 0 0).1 = some x →
      x.xp_netid = some nc.nc_netid

/-! ## Sample data for concrete runs -/

/-- The provider "udp". -/
def udp : netconfig := { nc_netid := "udp", nc_protofmly := "inet", nc_device := "-" }

/-- The provider "tcp". -/
def tcp : netconfig := { nc_netid := "tcp", nc_protofmly := "inet", nc_device := "-" }

/-- The handle a transport constructor of the sample environments makes for `fd`. -/
def mkXprt (fd : Int) : SVCXPRT :=
  { xp_addr := 100 + fd.toNat, xp_fd := fd, xp_si_type := 0, xp_netid := none, xp_tp := none }

/-- A sample environment in which every call succeeds: the selector yields
"udp" (datagram, descriptor 3) and "tcp" (stream, descriptor 4); adopted
descriptors are bound stream sockets, and descriptor 9 has a peer. -/
def envOk : Env where
  RPC_ANYFD := -1
  SOCK_STREAM := 1
  SOCK_DGRAM := 2
  SOMAXCONN := 128
  __rpc_setconf := fun _ _ => some [udp, tcp]
  svc_reg := fun _ _ _ _ _ _ => true
  mem_alloc := fun _ => true
  __rpc_nconf2fd := fun _ nc => if nc.nc_netid = "udp" then 3 else 4
  __rpc_nconf2sockinfo := fun _ nc =>
    { si_af := 2, si_proto := 0, si_socktype := if nc.nc_netid = "udp" then 2 else 1,
      si_alen := 16 }
  __rpc_fd2sockinfo := fun _ _ => some { si_af := 2, si_proto := 6, si_socktype := 1, si_alen := 16 }
  __rpc_sockisbound := fun _ _ => true
  bindresvport := fun _ _ => 0
  bind := fun _ _ _ _ => 0
  listen := fun _ _ _ => 0
  getpeername := fun _ fd => if fd = 9 then 0 else -1
  svc_fd_create := fun _ fd _ _ => some (mkXprt fd)
  svc_vc_create := fun _ fd _ _ => some (mkXprt fd)
  svc_dg_create := fun _ fd _ _ => some (mkXprt fd)
  __rpc_socktype2seman := fun s => if s = 2 then 1 else if s = 1 then 3 else -1
  rpc_strdup := fun _ _ => true

/-- The sample environment with `mem_alloc` failing. -/
def envNoMem : Env := { envOk with mem_alloc := fun _ => false }

/-- The sample environment with `listen` failing. -/
def envListenFails : Env := { envOk with listen := fun _ _ _ => -1 }

/-- The sample environment with every bind failing. -/
def envBindFails : Env :=
  { envOk with bindresvport := fun _ _ => -1, bind := fun _ _ _ _ => -1 }

/-- The sample environment with the datagram constructor failing. -/
def envDgFails : Env := { envOk with svc_dg_create := fun _ _ _ _ => none }

/-- The sample environment with the connected-descriptor constructor failing. -/
def envFdFails : Env := { envOk with svc_fd_create := fun _ _ _ _ => none }

/-- The sample environment with registration refused. -/
def envRegFails : Env := { envOk with svc_reg := fun _ _ _ _ _ _ => false }

/-- The world before anything happened. -/
def world0 : World := { xprtlist := [], trace := [] }

/-- The handle provisioned for "udp" in the sample environment. -/
def xprtUdp : SVCXPRT :=
  { xp_addr := 103, xp_fd := 3, xp_si_type := 1, xp_netid := some "udp", xp_tp := some "-" }

/-- The handle provisioned for "tcp" in the sample environment. -/
def xprtTcp : SVCXPRT :=
  { xp_addr := 104, xp_fd := 4, xp_si_type := 3, xp_netid := some "tcp", xp_tp := some "-" }

/-- A world whose list already holds the handle for "udp". -/
def worldUdp : World := { xprtlist := [xprtUdp], trace := [] }

/-- A bind address with backlog 5. -/
def addr111 : t_bind := { addr := { sa_family := 2, sa_data := [0, 111] }, qlen := 5 }

/-- The socket information of the provider "tcp" in the sample environments. -/
def siTcp : __rpc_sockinfo := { si_af := 2, si_proto := 0, si_socktype := 1, si_alen := 16 }

/-- The socket information of an adopted datagram descriptor. -/
def siDgram : __rpc_sockinfo := { si_af := 2, si_proto := 17, si_socktype := 2, si_alen := 16 }

/-- The sample environment with adopted descriptors being datagram sockets. -/
def envDgram : Env := { envOk with __rpc_fd2sockinfo := fun _ _ => some siDgram }

/-! ## Lemmas -/

/-! ### Traces -/

@[simp]
theorem emit_trace (w : World) (e : Ev) : (w.emit e).trace = w.trace ++ [e] := rfl

@[simp]
theorem emit_xprtlist (w : World) (e : Ev) : (w.emit e).xprtlist = w.xprtlist := rfl

@[simp]
theorem do_listen_trace (E : Env) (w : World) (fd b : Int) :
    (do_listen E w fd b).trace = w.trace ++ [Ev.listen fd b (E.listen w.trace fd b)] := rfl

@[simp]
theorem do_listen_xprtlist (E : Env) (w : World) (fd b : Int) :
    (do_listen E w fd b).xprtlist = w.xprtlist := rfl

@[simp]
theorem freedata_none (E : Env) (w : World) (madefd : Bool) (fd : Int) :
    freedata E w madefd fd none = (none, if madefd then w.emit (Ev.close fd) else w) := rfl

/-- Events added after a known list of earlier ones. -/
theorem after_events {w w1 w2 : World} (pre : List Ev) {Q R : List Ev → Prop}
    (h : ∃ evs, w2.trace = w1.trace ++ evs ∧ R evs)
    (hw : w1.trace = w.trace ++ pre) (hQ : ∀ evs, R evs → Q (pre ++ evs)) :
    ∃ evs, w2.trace = w.trace ++ evs ∧ Q evs := by
  obtain ⟨evs, h1, h2⟩ := h
  exact ⟨pre ++ evs, by rw [h1, hw, List.append_assoc], hQ evs h2⟩

/-- Events added after one recorded call. -/
theorem after1 {w w2 : World} {a : Ev} {Q R : List Ev → Prop}
    (h : ∃ evs, w2.trace = (w.emit a).trace ++ evs ∧ R evs)
    (hQ : ∀ evs, R evs → Q (a :: evs)) :
    ∃ evs, w2.trace = w.trace ++ evs ∧ Q evs :=
  after_events [a] h rfl hQ

/-- Events added after two recorded calls. -/
theorem after2 {w w2 : World} {a b : Ev} {Q R : List Ev → Prop}
    (h : ∃ evs, w2.trace = ((w.emit a).emit b).trace ++ evs ∧ R evs)
    (hQ : ∀ evs, R evs → Q (a :: b :: evs)) :
    ∃ evs, w2.trace = w.trace ++ evs ∧ Q evs :=
  after_events [a, b] h (by simp) hQ

/-- Events added after three recorded calls. -/
theorem after3 {w w2 : World} {a b c : Ev} {Q R : List Ev → Prop}
    (h : ∃ evs, w2.trace = (((w.emit a).emit b).emit c).trace ++ evs ∧ R evs)
    (hQ : ∀ evs, R evs → Q (a :: b :: c :: evs)) :
    ∃ evs, w2.trace = w.trace ++ evs ∧ Q evs :=
  after_events [a, b, c] h (by simp) hQ

/-- A trace equation gives the added events. -/
theorem ext_of_eq {t2 t : List Ev} {Q : List Ev → Prop} {evs : List Ev} (h : t2 = t ++ evs)
    (hQ : Q evs) : ∃ evs, t2 = t ++ evs ∧ Q evs := ⟨evs, h, hQ⟩

/-! ### Closing the descriptor on failure

Each part of `svc_tli_create` is described by what it appends to the trace:
`∃ evs, trace after = trace before ++ evs ∧ ...`. -/

theorem done_closes (E : Env) (w : World) (fd : Int) (nconf : Option netconfig)
    (madefd : Bool) (si : __rpc_sockinfo) (xprt : Option SVCXPRT) (d : Int) :
    ∃ evs, (svc_tli_done E w fd nconf madefd si xprt).2.trace = w.trace ++ evs ∧
      ((svc_tli_done E w fd nconf madefd si xprt).1 = none →
        closeCount d evs = ownCloses madefd fd d) := by
  unfold svc_tli_done
  cases xprt <;> cases nconf <;> cases madefd <;>
    simp [strdup, closeCount, closesFd, List.countP_cons, ownCloses]

theorem xprt_closes (E : Env) (w : World) (fd : Int) (nconf : Option netconfig)
    (sendsz recvsz : Nat) (madefd : Bool) (si : __rpc_sockinfo) (d : Int) :
    ∃ evs, (svc_tli_xprt E w fd nconf sendsz recvsz madefd si).2.trace = w.trace ++ evs ∧
      ((svc_tli_xprt E w fd nconf sendsz recvsz madefd si).1 = none →
        closeCount d evs = ownCloses madefd fd d) := by
  unfold svc_tli_xprt
  dsimp only
  split_ifs
  · refine after2 (done_closes E _ fd nconf madefd si _ d) ?_
    intro evs h hn
    simpa [closeCount, List.countP_cons, closesFd] using h hn
  · refine after2 (done_closes E _ fd nconf madefd si _ d) ?_
    intro evs h hn
    simpa [closeCount, List.countP_cons, closesFd] using h hn
  · refine after1 (done_closes E _ fd nconf madefd si _ d) ?_
    intro evs h hn
    simpa [closeCount, List.countP_cons, closesFd] using h hn
  · cases madefd <;> simp [closeCount, List.countP_cons, closesFd, ownCloses]

theorem dobind_closes (E : Env) (w : World) (fd : Int) (nconf : Option netconfig)
    (bindaddr : Option t_bind) (sendsz recvsz : Nat) (madefd : Bool) (si : __rpc_sockinfo)
    (d : Int) :
    ∃ evs, (svc_tli_dobind E w fd nconf bindaddr sendsz recvsz madefd si).2.trace =
        w.trace ++ evs ∧
      ((svc_tli_dobind E w fd nconf bindaddr sendsz recvsz madefd si).1 = none →
        closeCount d evs = ownCloses madefd fd d) := by
  unfold svc_tli_dobind
  split <;> dsimp only <;> split_ifs
  · cases madefd <;> simp [closeCount, List.countP_cons, closesFd, ownCloses]
  · refine after3 (xprt_closes E _ fd nconf sendsz recvsz madefd si d) ?_
    intro evs h hn
    simpa [closeCount, List.countP_cons, closesFd] using h hn
  · refine after2 (xprt_closes E _ fd nconf sendsz recvsz madefd si d) ?_
    intro evs h hn
    simpa [closeCount, List.countP_cons, closesFd] using h hn
  · cases madefd <;> simp [closeCount, List.countP_cons, closesFd, ownCloses]
  · refine after2 (xprt_closes E _ fd nconf sendsz recvsz madefd si d) ?_
    intro evs h hn
    simpa [closeCount, List.countP_cons, closesFd] using h hn

theorem bind_closes (E : Env) (w : World) (fd : Int) (nconf : Option netconfig)
    (bindaddr : Option t_bind) (sendsz recvsz : Nat) (madefd : Bool) (si : __rpc_sockinfo)
    (d : Int) :
    ∃ evs, (svc_tli_bind E w fd nconf bindaddr sendsz recvsz madefd si).2.trace =
        w.trace ++ evs ∧
      ((svc_tli_bind E w fd nconf bindaddr sendsz recvsz madefd si).1 = none →
        closeCount d evs = ownCloses madefd fd d) := by
  unfold svc_tli_bind
  dsimp only
  split_ifs
  · exact dobind_closes E w fd nconf bindaddr sendsz recvsz madefd si d
  · refine after1 (dobind_closes E _ fd nconf bindaddr sendsz recvsz madefd si d) ?_
    intro evs h hn
    simpa [closeCount, List.countP_cons, closesFd] using h hn
  · refine after1 (xprt_closes E _ fd nconf sendsz recvsz madefd si d) ?_
    intro evs h hn
    simpa [closeCount, List.countP_cons, closesFd] using h hn

/-! ### Provisioning does not touch `xprtlist` -/

@[simp]
theorem svc_tli_done_xprtlist (E : Env) (w : World) (fd : Int) (nconf : Option netconfig)
    (madefd : Bool) (si : __rpc_sockinfo) (xprt : Option SVCXPRT) :
    (svc_tli_done E w fd nconf madefd si xprt).2.xprtlist = w.xprtlist := by
  unfold svc_tli_done
  cases xprt <;> cases nconf <;> cases madefd <;> simp [strdup]

@[simp]
theorem svc_tli_xprt_xprtlist (E : Env) (w : World) (fd : Int) (nconf : Option netconfig)
    (sendsz recvsz : Nat) (madefd : Bool) (si : __rpc_sockinfo) :
    (svc_tli_xprt E w fd nconf sendsz recvsz madefd si).2.xprtlist = w.xprtlist := by
  unfold svc_tli_xprt
  dsimp only
  split_ifs <;> try simp
  cases madefd <;> simp

@[simp]
theorem svc_tli_dobind_xprtlist (E : Env) (w : World) (fd : Int)
    (nconf : Option netconfig) (bindaddr : Option t_bind) (sendsz recvsz : Nat) (madefd : Bool)
    (si : __rpc_sockinfo) :
    (svc_tli_dobind E w fd nconf bindaddr sendsz recvsz madefd si).2.xprtlist = w.xprtlist := by
  unfold svc_tli_dobind
  split <;> dsimp only <;> split_ifs <;> cases madefd <;> simp

@[simp]
theorem svc_tli_bind_xprtlist (E : Env) (w : World) (fd : Int)
    (nconf : Option netconfig) (bindaddr : Option t_bind) (sendsz recvsz : Nat) (madefd : Bool)
    (si : __rpc_sockinfo) :
    (svc_tli_bind E w fd nconf bindaddr sendsz recvsz madefd si).2.xprtlist = w.xprtlist := by
  unfold svc_tli_bind
  dsimp only
  split_ifs <;> simp

@[simp]
theorem svc_tli_create_xprtlist (E : Env) (w : World) (fd : Int)
    (nconf : Option netconfig) (bindaddr : Option t_bind) (sendsz recvsz : Nat) :
    (svc_tli_create E w fd nconf bindaddr sendsz recvsz).2.xprtlist = w.xprtlist := by
  unfold svc_tli_create
  split_ifs
  · split
    · simp
    · dsimp only
      split_ifs <;> simp
  · split <;> simp

@[simp]
theorem svc_tp_create_xprtlist (E : Env) (w : World) (dispatch prognum versnum : Nat)
    (nconf : Option netconfig) :
    (svc_tp_create E w dispatch prognum versnum nconf).2.xprtlist = w.xprtlist := by
  unfold svc_tp_create
  split
  · simp
  · rename_i nc
    have h := svc_tli_create_xprtlist E w E.RPC_ANYFD (some nc) none 0 0
    split
    · rename_i w1 heq
      rw [heq] at h
      simpa using h
    · rename_i x w1 heq
      rw [heq] at h
      dsimp only
      split_ifs <;> simpa using h

/-! ### The kinds of event each part can add -/

theorem done_events (E : Env) (w : World) (fd : Int) (nconf : Option netconfig)
    (madefd : Bool) (si : __rpc_sockinfo) (xprt : Option SVCXPRT) :
    ∃ evs, (svc_tli_done E w fd nconf madefd si xprt).2.trace = w.trace ++ evs ∧
      ∀ e ∈ evs, xprtEv e = true := by
  unfold svc_tli_done
  cases xprt <;> cases nconf <;> cases madefd <;> simp [strdup, xprtEv]

theorem xprt_events (E : Env) (w : World) (fd : Int) (nconf : Option netconfig)
    (sendsz recvsz : Nat) (madefd : Bool) (si : __rpc_sockinfo) :
    ∃ evs, (svc_tli_xprt E w fd nconf sendsz recvsz madefd si).2.trace = w.trace ++ evs ∧
      ∀ e ∈ evs, xprtEv e = true := by
  unfold svc_tli_xprt
  dsimp only
  split_ifs
  · refine after2 (done_events E _ fd nconf madefd si _) ?_
    intro evs h; simpa [xprtEv] using h
  · refine after2 (done_events E _ fd nconf madefd si _) ?_
    intro evs h; simpa [xprtEv] using h
  · refine after1 (done_events E _ fd nconf madefd si _) ?_
    intro evs h; simpa [xprtEv] using h
  · cases madefd <;> simp [xprtEv]

theorem tliEv_of_xprtEv (nconf : Option netconfig) (e : Ev) (h : xprtEv e = true) :
    tliEv nconf e = true := by
  cases e <;> simp_all [xprtEv, tliEv]

theorem dobind_events (E : Env) (w : World) (fd : Int) (nconf : Option netconfig)
    (bindaddr : Option t_bind) (sendsz recvsz : Nat) (madefd : Bool) (si : __rpc_sockinfo) :
    ∃ evs, (svc_tli_dobind E w fd nconf bindaddr sendsz recvsz madefd si).2.trace =
        w.trace ++ evs ∧ ∀ e ∈ evs, tliEv nconf e = true := by
  unfold svc_tli_dobind
  split <;> dsimp only <;> split_ifs
  · cases madefd <;> simp [tliEv, xprtEv]
  · refine after3 (xprt_events E _ fd nconf sendsz recvsz madefd si) ?_
    intro evs h
    simpa [tliEv] using fun e he => tliEv_of_xprtEv nconf e (h e he)
  · refine after2 (xprt_events E _ fd nconf sendsz recvsz madefd si) ?_
    intro evs h
    simpa [tliEv] using fun e he => tliEv_of_xprtEv nconf e (h e he)
  · cases madefd <;> simp [tliEv, xprtEv]
  · refine after2 (xprt_events E _ fd nconf sendsz recvsz madefd si) ?_
    intro evs h
    simpa [tliEv] using fun e he => tliEv_of_xprtEv nconf e (h e he)

theorem bind_events (E : Env) (w : World) (fd : Int) (nconf : Option netconfig)
    (bindaddr : Option t_bind) (sendsz recvsz : Nat) (madefd : Bool) (si : __rpc_sockinfo) :
    ∃ evs, (svc_tli_bind E w fd nconf bindaddr sendsz recvsz madefd si).2.trace =
        w.trace ++ evs ∧ ∀ e ∈ evs, tliEv nconf e = true := by
  unfold svc_tli_bind
  dsimp only
  split_ifs
  · exact dobind_events E w fd nconf bindaddr sendsz recvsz madefd si
  · refine after1 (dobind_events E _ fd nconf bindaddr sendsz recvsz madefd si) ?_
    intro evs h; simpa [tliEv] using h
  · refine after1 (xprt_events E _ fd nconf sendsz recvsz madefd si) ?_
    intro evs h
    simpa [tliEv] using fun e he => tliEv_of_xprtEv nconf e (h e he)

theorem svc_tli_create_events (E : Env) (w : World) (fd : Int)
    (nconf : Option netconfig) (bindaddr : Option t_bind) (sendsz recvsz : Nat) :
    ∃ evs, (svc_tli_create E w fd nconf bindaddr sendsz recvsz).2.trace = w.trace ++ evs ∧
      ∀ e ∈ evs, tliEv nconf e = true := by
  unfold svc_tli_create
  split_ifs
  · split
    · simp [tliEv, xprtEv]
    · dsimp only
      split_ifs
      · simp [tliEv, xprtEv]
      · refine after2 (bind_events E _ _ _ bindaddr sendsz recvsz true _) ?_
        intro evs h; simpa [tliEv] using h
  · split
    · simp [tliEv, xprtEv]
    · refine after1 (bind_events E _ _ _ bindaddr sendsz recvsz false _) ?_
      intro evs h; simpa [tliEv] using h

/-- A call of `svc_tli_create` with `RPC_ANYFD` for a provider starts with
the call `__rpc_nconf2fd(nconf)`. -/
theorem svc_tli_create_opens (E : Env) (w : World) (nc : netconfig)
    (bindaddr : Option t_bind) (sendsz recvsz : Nat) :
    ∃ evs, (svc_tli_create E w E.RPC_ANYFD (some nc) bindaddr sendsz recvsz).2.trace =
      w.trace ++ Ev.nconf2fd nc (E.__rpc_nconf2fd w.trace nc) :: evs := by
  unfold svc_tli_create
  simp only [if_true]
  split_ifs
  · exact ⟨[Ev.warnx "svc_tli_create: could not open connection"], by simp⟩
  · obtain ⟨evs, h1, -⟩ := bind_events E ((w.emit (Ev.nconf2fd nc (E.__rpc_nconf2fd w.trace
      nc))).emit (Ev.nconf2sockinfo nc)) (E.__rpc_nconf2fd w.trace nc) (some nc) bindaddr
      sendsz recvsz true (E.__rpc_nconf2sockinfo (w.emit (Ev.nconf2fd nc
        (E.__rpc_nconf2fd w.trace nc))).trace nc)
    exact ⟨Ev.nconf2sockinfo nc :: evs, by rw [h1]; simp⟩

/-! ### One `listen` call per successful bind -/

theorem countP_eq_zero_of_xprtEv {p : Ev → Bool} (hp : ∀ e, xprtEv e = true → p e = false)
    {evs : List Ev} (h : ∀ e ∈ evs, xprtEv e = true) : evs.countP p = 0 := by
  rw [List.countP_eq_zero]
  intro e he
  simp [hp e (h e he)]

theorem isListen_xprtEv (e : Ev) (h : xprtEv e = true) : isListen e = false := by
  cases e <;> simp_all [xprtEv, isListen]

theorem isBindOk_xprtEv (e : Ev) (h : xprtEv e = true) : isBindOk e = false := by
  cases e <;> simp_all [xprtEv, isBindOk]

theorem dobind_listen (E : Env) (w : World) (fd : Int) (nconf : Option netconfig)
    (bindaddr : Option t_bind) (sendsz recvsz : Nat) (madefd : Bool) (si : __rpc_sockinfo) :
    ∃ evs, (svc_tli_dobind E w fd nconf bindaddr sendsz recvsz madefd si).2.trace =
        w.trace ++ evs ∧ evs.countP isListen = evs.countP isBindOk := by
  unfold svc_tli_dobind
  split <;> dsimp only <;> split_ifs
  · simp only [emit_trace] at *
    cases madefd <;> simp [isListen, isBindOk, List.countP_cons] <;> split_ifs <;> omega
  · refine after3 (xprt_events E _ fd nconf sendsz recvsz madefd si) ?_
    intro evs h
    simp only [emit_trace] at *
    simp [isListen, isBindOk, List.countP_cons, countP_eq_zero_of_xprtEv isListen_xprtEv h,
      countP_eq_zero_of_xprtEv isBindOk_xprtEv h]
    try (split_ifs <;> omega)
  · refine after2 (xprt_events E _ fd nconf sendsz recvsz madefd si) ?_
    intro evs h
    simp only [emit_trace] at *
    simp [isListen, isBindOk, List.countP_cons, countP_eq_zero_of_xprtEv isListen_xprtEv h,
      countP_eq_zero_of_xprtEv isBindOk_xprtEv h]
    try (split_ifs <;> omega)
  · simp only [emit_trace] at *
    cases madefd <;> simp [isListen, isBindOk, List.countP_cons] <;> split_ifs <;> omega
  · refine after2 (xprt_events E _ fd nconf sendsz recvsz madefd si) ?_
    intro evs h
    simp only [emit_trace] at *
    simp [isListen, isBindOk, List.countP_cons, countP_eq_zero_of_xprtEv isListen_xprtEv h,
      countP_eq_zero_of_xprtEv isBindOk_xprtEv h]
    try (split_ifs <;> omega)

theorem bind_listen (E : Env) (w : World) (fd : Int) (nconf : Option netconfig)
    (bindaddr : Option t_bind) (sendsz recvsz : Nat) (madefd : Bool) (si : __rpc_sockinfo) :
    ∃ evs, (svc_tli_bind E w fd nconf bindaddr sendsz recvsz madefd si).2.trace =
        w.trace ++ evs ∧ evs.countP isListen = evs.countP isBindOk := by
  unfold svc_tli_bind
  dsimp only
  split_ifs
  · exact dobind_listen E w fd nconf bindaddr sendsz recvsz madefd si
  · refine after1 (dobind_listen E _ fd nconf bindaddr sendsz recvsz madefd si) ?_
    intro evs h
    simpa [isListen, isBindOk, List.countP_cons] using h
  · refine after1 (xprt_events E _ fd nconf sendsz recvsz madefd si) ?_
    intro evs h
    simp [isListen, isBindOk, List.countP_cons, countP_eq_zero_of_xprtEv isListen_xprtEv h,
      countP_eq_zero_of_xprtEv isBindOk_xprtEv h]

/-- The number of `listen` calls of a call equals the number of its successful
bind calls. -/
theorem svc_tli_create_listen_count (E : Env) (w : World) (fd : Int)
    (nconf : Option netconfig) (bindaddr : Option t_bind) (sendsz recvsz : Nat) :
    ∃ evs, (svc_tli_create E w fd nconf bindaddr sendsz recvsz).2.trace = w.trace ++ evs ∧
      evs.countP isListen = evs.countP isBindOk := by
  unfold svc_tli_create
  split_ifs
  · split
    · simp [isListen, isBindOk, List.countP_cons]
    · dsimp only
      split_ifs
      · simp [isListen, isBindOk, List.countP_cons]
      · refine after2 (bind_listen E _ _ _ bindaddr sendsz recvsz true _) ?_
        intro evs h
        simpa [isListen, isBindOk, List.countP_cons] using h
  · split
    · simp [isListen, isBindOk, List.countP_cons]
    · refine after1 (bind_listen E _ _ _ bindaddr sendsz recvsz false _) ?_
      intro evs h
      simpa [isListen, isBindOk, List.countP_cons] using h

/-- An adopted descriptor that is already bound gets no `listen` call. -/
theorem svc_tli_create_bound_no_listen (E : Env) (w : World) (fd : Int)
    (nconf : Option netconfig) (bindaddr : Option t_bind) (sendsz recvsz : Nat)
    (hfd : fd ≠ E.RPC_ANYFD)
    (hbound : E.__rpc_sockisbound (w.trace ++ [Ev.fd2sockinfo fd true]) fd = true) :
    ∃ evs, (svc_tli_create E w fd nconf bindaddr sendsz recvsz).2.trace = w.trace ++ evs ∧
      evs.countP isListen = 0 := by
  unfold svc_tli_create
  simp only [if_neg hfd]
  split
  · simp [isListen, List.countP_cons]
  · rename_i si hsi
    unfold svc_tli_bind
    simp only [Bool.false_eq_true, if_false, emit_trace, hbound, reduceCtorEq]
    refine after2 (xprt_events E _ fd nconf sendsz recvsz false si) ?_
    intro evs h
    simp [isListen, List.countP_cons, countP_eq_zero_of_xprtEv isListen_xprtEv h]

/-! ### A failed `bind` is fatal -/

theorem dobind_bind_failure (E : Env) (w : World) (fd : Int) (nconf : Option netconfig)
    (bindaddr : Option t_bind) (sendsz recvsz : Nat) (madefd : Bool) (si : __rpc_sockinfo) :
    ∃ evs, (svc_tli_dobind E w fd nconf bindaddr sendsz recvsz madefd si).2.trace =
        w.trace ++ evs ∧
      ((∃ d a l r, Ev.bind d a l r ∈ evs ∧ r < 0) →
        (svc_tli_dobind E w fd nconf bindaddr sendsz recvsz madefd si).1 = none ∧
          ∀ e ∈ evs, isCtor e = false) := by
  have hx : ∀ {evs : List Ev}, (∀ e ∈ evs, xprtEv e = true) → ∀ d a l r, Ev.bind d a l r ∉ evs := by
    intro evs h d a l r hmem
    simpa [xprtEv] using h _ hmem
  unfold svc_tli_dobind
  split <;> dsimp only <;> split_ifs
  · cases madefd <;> simp [isCtor]
  · refine after3 (xprt_events E _ fd nconf sendsz recvsz madefd si) ?_
    intro evs h
    simp only [emit_trace] at *
    rintro ⟨d, a, l, r, hmem, hr⟩
    exfalso
    simp only [List.mem_cons, Ev.bind.injEq, reduceCtorEq, false_or] at hmem
    rcases hmem with ⟨-, -, -, rfl⟩ | hmem
    · omega
    · exact hx h _ _ _ _ hmem
  · refine after2 (xprt_events E _ fd nconf sendsz recvsz madefd si) ?_
    intro evs h
    rintro ⟨d, a, l, r, hmem, hr⟩
    exfalso
    simp only [List.mem_cons, Ev.bind.injEq, reduceCtorEq, false_or] at hmem
    exact hx h _ _ _ _ hmem
  · cases madefd <;> simp [isCtor]
  · refine after2 (xprt_events E _ fd nconf sendsz recvsz madefd si) ?_
    intro evs h
    simp only [emit_trace] at *
    rintro ⟨d, a, l, r, hmem, hr⟩
    exfalso
    simp only [List.mem_cons, Ev.bind.injEq, reduceCtorEq, false_or] at hmem
    rcases hmem with ⟨-, -, -, rfl⟩ | hmem
    · omega
    · exact hx h _ _ _ _ hmem

theorem bind_bind_failure (E : Env) (w : World) (fd : Int) (nconf : Option netconfig)
    (bindaddr : Option t_bind) (sendsz recvsz : Nat) (madefd : Bool) (si : __rpc_sockinfo) :
    ∃ evs, (svc_tli_bind E w fd nconf bindaddr sendsz recvsz madefd si).2.trace =
        w.trace ++ evs ∧
      ((∃ d a l r, Ev.bind d a l r ∈ evs ∧ r < 0) →
        (svc_tli_bind E w fd nconf bindaddr sendsz recvsz madefd si).1 = none ∧
          ∀ e ∈ evs, isCtor e = false) := by
  unfold svc_tli_bind
  dsimp only
  split_ifs
  · exact dobind_bind_failure E w fd nconf bindaddr sendsz recvsz madefd si
  · refine after1 (dobind_bind_failure E _ fd nconf bindaddr sendsz recvsz madefd si) ?_
    intro evs h
    simpa [isCtor] using h
  · refine after1 (xprt_events E _ fd nconf sendsz recvsz madefd si) ?_
    intro evs h
    rintro ⟨d, a, l, r, hmem, hr⟩
    exfalso
    simp only [List.mem_cons, reduceCtorEq, false_or] at hmem
    simpa [xprtEv] using h _ hmem

/-- A failed `bind` anywhere in a call of `svc_tli_create` makes it return
null before any transport constructor is called. -/
theorem svc_tli_create_bind_fatal (E : Env) (w : World) (fd : Int)
    (nconf : Option netconfig) (bindaddr : Option t_bind) (sendsz recvsz : Nat) :
    ∃ evs, (svc_tli_create E w fd nconf bindaddr sendsz recvsz).2.trace = w.trace ++ evs ∧
      ((∃ d a l r, Ev.bind d a l r ∈ evs ∧ r < 0) →
        (svc_tli_create E w fd nconf bindaddr sendsz recvsz).1 = none ∧
          ∀ e ∈ evs, isCtor e = false) := by
  unfold svc_tli_create
  split_ifs
  · split
    · simp [isCtor]
    · dsimp only
      split_ifs
      · simp [isCtor]
      · refine after2 (bind_bind_failure E _ _ _ bindaddr sendsz recvsz true _) ?_
        intro evs h
        simpa [isCtor] using h
  · split
    · simp [isCtor]
    · refine after1 (bind_bind_failure E _ _ _ bindaddr sendsz recvsz false _) ?_
      intro evs h
      simpa [isCtor] using h

/-! ### What a returned handle tells about the call -/

theorem done_some (E : Env) (w : World) (fd : Int) (nconf : Option netconfig)
    (madefd : Bool) (si : __rpc_sockinfo) (xprt : Option SVCXPRT) (x : SVCXPRT)
    (h : (svc_tli_done E w fd nconf madefd si xprt).1 = some x) :
    ∃ x0, xprt = some x0 ∧ x.xp_addr = x0.xp_addr ∧ x.xp_fd = x0.xp_fd := by
  unfold svc_tli_done at h
  cases xprt with
  | none => simp at h
  | some x0 =>
    refine ⟨x0, rfl, ?_⟩
    cases nconf <;> simp at h <;> subst h <;> simp

theorem xprt_some (E : Env) (w : World) (fd : Int) (nconf : Option netconfig)
    (sendsz recvsz : Nat) (madefd : Bool) (si : __rpc_sockinfo) (x : SVCXPRT)
    (h : (svc_tli_xprt E w fd nconf sendsz recvsz madefd si).1 = some x) :
    ∃ evs, (svc_tli_xprt E w fd nconf sendsz recvsz madefd si).2.trace = w.trace ++ evs ∧
      ∃ x0, x.xp_addr = x0.xp_addr ∧ x.xp_fd = x0.xp_fd ∧ builtOn fd sendsz recvsz x0 evs := by
  revert h
  unfold svc_tli_xprt
  dsimp only
  split_ifs
  · intro h
    obtain ⟨x0, hx0, ha, hf⟩ := done_some _ _ _ _ _ _ _ _ h
    refine after2 (R := fun _ => True) ((done_events E _ fd nconf madefd si _).imp
      fun _ h => ⟨h.1, trivial⟩) ?_
    intro evs _
    exact ⟨x0, ha, hf, by simp [builtOn, ← hx0]⟩
  · intro h
    obtain ⟨x0, hx0, ha, hf⟩ := done_some _ _ _ _ _ _ _ _ h
    refine after2 (R := fun _ => True) ((done_events E _ fd nconf madefd si _).imp
      fun _ h => ⟨h.1, trivial⟩) ?_
    intro evs _
    exact ⟨x0, ha, hf, by simp [builtOn, ← hx0]⟩
  · intro h
    obtain ⟨x0, hx0, ha, hf⟩ := done_some _ _ _ _ _ _ _ _ h
    refine after1 (R := fun _ => True) ((done_events E _ fd nconf madefd si _).imp
      fun _ h => ⟨h.1, trivial⟩) ?_
    intro evs _
    exact ⟨x0, ha, hf, by simp [builtOn, ← hx0]⟩
  · cases madefd <;> simp

theorem builtOn_cons {fd : Int} {sendsz recvsz : Nat} {x0 : SVCXPRT} {evs : List Ev} (e : Ev)
    (h : builtOn fd sendsz recvsz x0 evs) : builtOn fd sendsz recvsz x0 (e :: evs) := by
  unfold builtOn at *
  simp only [List.mem_cons]
  tauto

theorem dobind_some (E : Env) (w : World) (fd : Int) (nconf : Option netconfig)
    (sendsz recvsz : Nat) (madefd : Bool) (si : __rpc_sockinfo) (x : SVCXPRT)
    (h : (svc_tli_dobind E w fd nconf none sendsz recvsz madefd si).1 = some x) :
    ∃ evs, (svc_tli_dobind E w fd nconf none sendsz recvsz madefd si).2.trace = w.trace ++ evs ∧
      BoundAndListenCalled fd E.SOMAXCONN si sendsz recvsz x evs := by
  revert h
  unfold svc_tli_dobind
  dsimp only
  split_ifs
  · cases madefd <;> simp
  · intro h
    refine after3 (xprt_some _ _ _ _ _ _ _ _ _ h) ?_
    rintro evs ⟨x0, ha, hf, hb⟩
    simp only [emit_trace] at *
    refine ⟨Or.inr ⟨_, ?_, List.mem_cons_of_mem _ (List.mem_cons_self _ _)⟩,
      ⟨_, List.mem_cons_of_mem _ (List.mem_cons_of_mem _ (List.mem_cons_self _ _))⟩, x0, ha, hf,
      builtOn_cons _ (builtOn_cons _ (builtOn_cons _ hb))⟩
    omega
  · intro h
    refine after2 (xprt_some _ _ _ _ _ _ _ _ _ h) ?_
    rintro evs ⟨x0, ha, hf, hb⟩
    refine ⟨Or.inl ⟨_, ?_, List.mem_cons_self _ _⟩,
      ⟨_, List.mem_cons_of_mem _ (List.mem_cons_self _ _)⟩, x0, ha, hf,
      builtOn_cons _ (builtOn_cons _ hb)⟩
    omega

/-! ### A stream descriptor with a peer -/

theorem FromFdCreate.cons {fd : Int} {sendsz recvsz : Nat} {r : Option SVCXPRT} {evs : List Ev}
    (a : Ev) (ha : isCtor a = false) (h : FromFdCreate fd sendsz recvsz r evs) :
    FromFdCreate fd sendsz recvsz r (a :: evs) := by
  refine ⟨?_, ?_⟩
  · intro e he hc
    rcases List.mem_cons.mp he with rfl | he
    · rw [ha] at hc
      exact Bool.noConfusion hc
    · exact h.1 e he hc
  · intro y hy
    obtain ⟨x, h1, h2⟩ := h.2 y hy
    exact ⟨x, List.mem_cons_of_mem _ h1, h2⟩

theorem FromFdCreate.none (fd : Int) (sendsz recvsz : Nat) {evs : List Ev}
    (h : ∀ e ∈ evs, isCtor e = false) : FromFdCreate fd sendsz recvsz none evs := by
  refine ⟨?_, ?_⟩
  · intro e he hc
    rw [h e he] at hc
    exact Bool.noConfusion hc
  · intro y hy
    exact Option.noConfusion hy

theorem done_netid (E : Env) (hdup : ∀ t s, E.rpc_strdup t s = true) (w : World) (fd : Int)
    (nc : netconfig) (madefd : Bool) (si : __rpc_sockinfo) (xprt : Option SVCXPRT) (x : SVCXPRT)
    (h : (svc_tli_done E w fd (some nc) madefd si xprt).1 = some x) :
    x.xp_netid = some nc.nc_netid := by
  unfold svc_tli_done at h
  cases xprt with
  | none => simp at h
  | some x0 =>
    simp [strdup, hdup] at h
    subst h
    rfl

theorem xprt_netid (E : Env) (hdup : ∀ t s, E.rpc_strdup t s = true) (w : World) (fd : Int)
    (nc : netconfig) (sendsz recvsz : Nat) (madefd : Bool) (si : __rpc_sockinfo) (x : SVCXPRT)
    (h : (svc_tli_xprt E w fd (some nc) sendsz recvsz madefd si).1 = some x) :
    x.xp_netid = some nc.nc_netid := by
  revert h
  unfold svc_tli_xprt
  dsimp only
  split_ifs
  · exact done_netid E hdup _ _ _ _ _ _ _
  · exact done_netid E hdup _ _ _ _ _ _ _
  · exact done_netid E hdup _ _ _ _ _ _ _
  · cases madefd <;> simp

theorem dobind_netid (E : Env) (hdup : ∀ t s, E.rpc_strdup t s = true) (w : World) (fd : Int)
    (nc : netconfig) (bindaddr : Option t_bind) (sendsz recvsz : Nat) (madefd : Bool)
    (si : __rpc_sockinfo) (x : SVCXPRT)
    (h : (svc_tli_dobind E w fd (some nc) bindaddr sendsz recvsz madefd si).1 = some x) :
    x.xp_netid = some nc.nc_netid := by
  revert h
  unfold svc_tli_dobind
  split <;> dsimp only <;> split_ifs
  · cases madefd <;> simp
  · exact xprt_netid E hdup _ _ _ _ _ _ _ _
  · exact xprt_netid E hdup _ _ _ _ _ _ _ _
  · cases madefd <;> simp
  · exact xprt_netid E hdup _ _ _ _ _ _ _ _

theorem bind_netid (E : Env) (hdup : ∀ t s, E.rpc_strdup t s = true) (w : World) (fd : Int)
    (nc : netconfig) (bindaddr : Option t_bind) (sendsz recvsz : Nat) (madefd : Bool)
    (si : __rpc_sockinfo) (x : SVCXPRT)
    (h : (svc_tli_bind E w fd (some nc) bindaddr sendsz recvsz madefd si).1 = some x) :
    x.xp_netid = some nc.nc_netid := by
  revert h
  unfold svc_tli_bind
  dsimp only
  split_ifs
  · exact dobind_netid E hdup _ _ _ _ _ _ _ _ _
  · exact dobind_netid E hdup _ _ _ _ _ _ _ _ _
  · exact xprt_netid E hdup _ _ _ _ _ _ _ _

/-- When `rpc_strdup` never fails, a handle provisioned from a provider
carries the network identity of that provider. -/
theorem svc_tli_create_netid (E : Env) (hdup : ∀ t s, E.rpc_strdup t s = true) (w : World)
    (fd : Int) (nc : netconfig) (bindaddr : Option t_bind) (sendsz recvsz : Nat) (x : SVCXPRT)
    (h : (svc_tli_create E w fd (some nc) bindaddr sendsz recvsz).1 = some x) :
    x.xp_netid = some nc.nc_netid := by
  revert h
  unfold svc_tli_create
  split_ifs
  · dsimp only
    split_ifs
    · simp
    · exact bind_netid E hdup _ _ _ _ _ _ _ _ _
  · split
    · simp
    · exact bind_netid E hdup _ _ _ _ _ _ _ _ _

/-! ### `svc_tp_create` -/

/-- A handle returned by `svc_tp_create` is the one `svc_tli_create` made. -/
theorem svc_tp_create_some (E : Env) (w : World) (dispatch prognum versnum : Nat)
    (nconf : Option netconfig) (x : SVCXPRT)
    (h : (svc_tp_create E w dispatch prognum versnum nconf).1 = some x) :
    ∃ nc, nconf = some nc ∧ (svc_tli_create E w E.RPC_ANYFD (some nc) none 0 0).1 = some x := by
  revert h
  unfold svc_tp_create
  split
  · simp
  · rename_i nc
    split
    · simp
    · rename_i x1 w1 heq
      dsimp only
      split_ifs
      · simp
      · intro h
        refine ⟨nc, rfl, ?_⟩
        rw [heq]
        simpa using h

theorem isDestroy_tliEv (nconf : Option netconfig) (e : Ev) (h : tliEv nconf e = true) :
    isDestroy e = false := by
  cases e <;> simp_all [tliEv, xprtEv, isDestroy]

/-! ### The loop of `svc_create` -/

theorem xlist_find_eq_none {l : List SVCXPRT} {netid : String} :
    xlist_find l netid = none ↔ some netid ∉ l.map SVCXPRT.xp_netid := by
  unfold xlist_find
  rw [List.find?_eq_none]
  simp only [decide_eq_true_eq, List.mem_map, not_exists, not_and]

theorem xlist_find_isSome {l : List SVCXPRT} {netid : String} :
    (xlist_find l netid).isSome = true ↔ some netid ∈ l.map SVCXPRT.xp_netid := by
  rw [← not_iff_not, ← xlist_find_eq_none]
  cases xlist_find l netid <;> simp

theorem svc_create_loop_nodup (E : Env) (dispatch prognum versnum : Nat) (hcarry : CarriesNetid E)
    (ncs : List netconfig) : ∀ (w : World) (num : Nat),
      (w.xprtlist.map SVCXPRT.xp_netid).Nodup →
      ((svc_create_loop E dispatch prognum versnum ncs w num).2.xprtlist.map
        SVCXPRT.xp_netid).Nodup := by
  induction ncs with
  | nil => intro w num h; simpa [svc_create_loop] using h
  | cons nc rest ih =>
    intro w num h
    rw [svc_create_loop]
    dsimp only
    split
    · split_ifs
      · exact ih _ _ (by simpa using h)
      · exact ih _ _ (by simpa using h)
    · rename_i hfind
      simp only [emit_xprtlist] at hfind
      split
      · rename_i xprt w2 heq
        have hx : w2.xprtlist = w.xprtlist := by
          have := svc_tp_create_xprtlist E ((w.emit (Ev.getconf (some nc))).emit Ev.mutex_lock)
            dispatch prognum versnum (some nc)
          rw [heq] at this
          simpa using this
        have hid : xprt.xp_netid = some nc.nc_netid := by
          obtain ⟨nc1, h1, h2⟩ := svc_tp_create_some E _ dispatch prognum versnum (some nc) xprt
            (by rw [heq])
          cases h1
          exact hcarry _ _ _ h2
        split_ifs
        · simpa [hx] using h
        · apply ih
          simp only [emit_xprtlist, List.map_cons, List.nodup_cons, hx, hid]
          exact ⟨xlist_find_eq_none.mp hfind, h⟩
      · rename_i w2 heq
        have hx : w2.xprtlist = w.xprtlist := by
          have := svc_tp_create_xprtlist E ((w.emit (Ev.getconf (some nc))).emit Ev.mutex_lock)
            dispatch prognum versnum (some nc)
          rw [heq] at this
          simpa using this
        exact ih _ _ (by simpa [hx] using h)

/-! ### Calling `svc_create` again -/

theorem svc_tp_create_events (E : Env) (w : World) (dispatch prognum versnum : Nat)
    (nconf : Option netconfig) :
    ∃ evs, (svc_tp_create E w dispatch prognum versnum nconf).2.trace = w.trace ++ evs ∧
      ∀ nc fd, Ev.nconf2fd nc fd ∈ evs → nconf = some nc := by
  unfold svc_tp_create
  split
  · exact ⟨_, rfl, by simp⟩
  · rename_i nc
    obtain ⟨evs, h1, h2⟩ := svc_tli_create_events E w E.RPC_ANYFD (some nc) none 0 0
    have h3 : ∀ nc1 fd, Ev.nconf2fd nc1 fd ∈ evs → some nc = some nc1 := by
      intro nc1 fd hmem
      simpa [tliEv] using h2 _ hmem
    split
    · rename_i w1 heq
      rw [heq] at h1
      exact ⟨evs, h1, h3⟩
    · rename_i x w1 heq
      rw [heq] at h1
      simp only at h1
      dsimp only
      split_ifs
      · apply ext_of_eq
        · simp only [h1, emit_trace, List.append_assoc, List.cons_append, List.nil_append]
          rfl
        · intro nc1 fd hmem
          simp only [List.mem_append, List.mem_cons, reduceCtorEq, List.mem_singleton, or_self,
            or_false, List.not_mem_nil] at hmem
          exact h3 _ _ hmem
      · apply ext_of_eq
        · simp only [h1, emit_trace, List.append_assoc, List.cons_append, List.nil_append]
          rfl
        · intro nc1 fd hmem
          simp only [List.mem_append, List.mem_cons, reduceCtorEq, List.mem_singleton, or_self,
            or_false, List.not_mem_nil] at hmem
          exact h3 _ _ hmem

theorem xlist_find_cons_none {x : SVCXPRT} {l : List SVCXPRT} {netid : String}
    (h : xlist_find (x :: l) netid = none) : xlist_find l netid = none := by
  rw [xlist_find_eq_none] at h ⊢
  intro hm
  exact h (by simp only [List.map_cons, List.mem_cons]; exact Or.inr hm)

/-- Whatever the outcomes, the loop only provisions for identities that
were not on the list when it started. -/
theorem svc_create_loop_provisions (E : Env) (dispatch prognum versnum : Nat)
    (ncs : List netconfig) : ∀ (w : World) (num : Nat),
      ∃ evs, (svc_create_loop E dispatch prognum versnum ncs w num).2.trace = w.trace ++ evs ∧
        ∀ nc fd, Ev.nconf2fd nc fd ∈ evs → xlist_find w.xprtlist nc.nc_netid = none := by
  induction ncs with
  | nil =>
    intro w num
    apply ext_of_eq
    · simp only [svc_create_loop, emit_trace, List.append_assoc, List.cons_append,
        List.nil_append]
      rfl
    · simp
  | cons nc rest ih =>
    intro w num
    rw [svc_create_loop]
    dsimp only
    split
    · split_ifs
      · obtain ⟨evs, h1, h2⟩ := ih ((((((w.emit (Ev.getconf (some nc))).emit
          Ev.mutex_lock).emit (Ev.rpcb_unset prognum versnum nc)).emit _).emit _).emit
          Ev.mutex_unlock) num
        simp only [emit_trace, List.append_assoc, List.cons_append, List.nil_append] at h1
        refine ⟨_, h1, ?_⟩
        intro nc1 fd hmem
        simp only [List.mem_cons, reduceCtorEq, false_or] at hmem
        simpa using h2 _ _ hmem
      · obtain ⟨evs, h1, h2⟩ := ih (((((w.emit (Ev.getconf (some nc))).emit
          Ev.mutex_lock).emit (Ev.rpcb_unset prognum versnum nc)).emit _).emit
          Ev.mutex_unlock) (num + 1)
        simp only [emit_trace, List.append_assoc, List.cons_append, List.nil_append] at h1
        refine ⟨_, h1, ?_⟩
        intro nc1 fd hmem
        simp only [List.mem_cons, reduceCtorEq, false_or] at hmem
        simpa using h2 _ _ hmem
    · rename_i hfind
      simp only [emit_xprtlist] at hfind
      obtain ⟨tevs, t1, t2⟩ := svc_tp_create_events E
        ((w.emit (Ev.getconf (some nc))).emit Ev.mutex_lock) dispatch prognum versnum (some nc)
      have hxl := svc_tp_create_xprtlist E ((w.emit (Ev.getconf (some nc))).emit Ev.mutex_lock)
        dispatch prognum versnum (some nc)
      have t3 : ∀ nc1 fd, Ev.nconf2fd nc1 fd ∈ tevs → xlist_find w.xprtlist nc1.nc_netid = none := by
        intro nc1 fd hmem
        have := t2 _ _ hmem
        simp only [Option.some.injEq] at this
        subst this
        exact hfind
      split
      · rename_i xprt w2 heq
        rw [heq] at t1 hxl
        simp only [emit_trace, emit_xprtlist, List.append_assoc, List.cons_append,
          List.nil_append] at t1 hxl
        split_ifs
        · apply ext_of_eq
          · simp only [t1, emit_trace, List.append_assoc, List.cons_append, List.nil_append]
            rfl
          · intro nc1 fd hmem
            simp only [List.mem_append, List.mem_cons, reduceCtorEq, List.mem_singleton, or_self,
              or_false, false_or, List.not_mem_nil] at hmem
            exact t3 _ _ hmem
        · obtain ⟨evs, h1, h2⟩ := ih (World.emit ⟨xprt :: (w2.emit (Ev.mem_alloc
            (E.mem_alloc w2.trace))).xprtlist, (w2.emit (Ev.mem_alloc
            (E.mem_alloc w2.trace))).trace⟩ Ev.mutex_unlock) (num + 1)
          apply ext_of_eq
          · rw [h1]
            simp only [t1, emit_trace, List.append_assoc, List.cons_append, List.nil_append]
            rfl
          · intro nc1 fd hmem
            simp only [List.mem_append, List.mem_cons, reduceCtorEq, List.mem_singleton, or_self,
              or_false, false_or, List.not_mem_nil] at hmem
            rcases hmem with hmem | hmem
            · exact t3 _ _ hmem
            · have := h2 _ _ hmem
              simp only [emit_xprtlist, hxl] at this
              exact xlist_find_cons_none this
      · rename_i w2 heq
        rw [heq] at t1 hxl
        simp only [emit_trace, emit_xprtlist, List.append_assoc, List.cons_append,
          List.nil_append] at t1 hxl
        obtain ⟨evs, h1, h2⟩ := ih (w2.emit Ev.mutex_unlock) num
        apply ext_of_eq
        · rw [h1]
          simp only [t1, emit_trace, List.append_assoc, List.cons_append, List.nil_append]
          rfl
        · intro nc1 fd hmem
          simp only [List.mem_append, List.mem_cons, reduceCtorEq, List.mem_singleton, or_self,
            or_false, false_or, List.not_mem_nil] at hmem
          rcases hmem with hmem | hmem
          · exact t3 _ _ hmem
          · simpa [hxl] using h2 _ _ hmem

theorem done_clean (E : Env) (w : World) (fd : Int) (nconf : Option netconfig)
    (madefd : Bool) (si : __rpc_sockinfo) (xprt : Option SVCXPRT) (hx : xprt.isNone = false) :
    ∃ evs, (svc_tli_done E w fd nconf madefd si xprt).2.trace = w.trace ++ evs ∧
      ((∀ e ∈ evs, failedStep e = false) →
        HandleFor nconf (svc_tli_done E w fd nconf madefd si xprt).1) := by
  unfold svc_tli_done
  cases xprt with
  | none => simp at hx
  | some x =>
    cases nconf with
    | none => exact ⟨[], by simp, fun _ => ⟨_, rfl, by simp⟩⟩
    | some nc =>
      apply ext_of_eq
      · simp only [strdup, emit_trace, List.append_assoc, List.cons_append, List.nil_append]
        rfl
      · intro h
        simp only [List.mem_cons, List.mem_singleton, forall_eq_or_imp, forall_eq, failedStep,
          Bool.not_eq_false', List.not_mem_nil, false_implies, implies_true, and_true] at h
        refine ⟨_, rfl, ?_⟩
        intro nc1 h1
        cases h1
        simp [strdup, h.1]

theorem xprt_clean (E : Env) (w : World) (fd : Int) (nconf : Option netconfig)
    (sendsz recvsz : Nat) (madefd : Bool) (si : __rpc_sockinfo) :
    ∃ evs, (svc_tli_xprt E w fd nconf sendsz recvsz madefd si).2.trace = w.trace ++ evs ∧
      ((∀ e ∈ evs, failedStep e = false) →
        HandleFor nconf (svc_tli_xprt E w fd nconf sendsz recvsz madefd si).1) := by
  unfold svc_tli_xprt
  dsimp only
  split_ifs
  · cases hc : (E.svc_fd_create (w.emit (Ev.getpeername fd (E.getpeername w.trace fd))).trace fd
      sendsz recvsz).isNone
    · refine after2 (done_clean E _ fd nconf madefd si _ hc) ?_
      intro evs h hall
      exact h fun e he => hall e (List.mem_cons_of_mem _ (List.mem_cons_of_mem _ he))
    · refine after2 (R := fun _ => True) ((done_events E _ fd nconf madefd si _).imp
        fun _ h => ⟨h.1, trivial⟩) ?_
      intro evs _ hall
      exact Bool.noConfusion (hc.symm.trans
        (hall _ (List.mem_cons_of_mem _ (List.mem_cons_self _ _))))
  · cases hc : (E.svc_vc_create (w.emit (Ev.getpeername fd (E.getpeername w.trace fd))).trace fd
      sendsz recvsz).isNone
    · refine after2 (done_clean E _ fd nconf madefd si _ hc) ?_
      intro evs h hall
      exact h fun e he => hall e (List.mem_cons_of_mem _ (List.mem_cons_of_mem _ he))
    · refine after2 (R := fun _ => True) ((done_events E _ fd nconf madefd si _).imp
        fun _ h => ⟨h.1, trivial⟩) ?_
      intro evs _ hall
      exact Bool.noConfusion (hc.symm.trans
        (hall _ (List.mem_cons_of_mem _ (List.mem_cons_self _ _))))
  · cases hc : (E.svc_dg_create w.trace fd sendsz recvsz).isNone
    · refine after1 (done_clean E _ fd nconf madefd si _ hc) ?_
      intro evs h hall
      exact h fun e he => hall e (List.mem_cons_of_mem _ he)
    · refine after1 (R := fun _ => True) ((done_events E _ fd nconf madefd si _).imp
        fun _ h => ⟨h.1, trivial⟩) ?_
      intro evs _ hall
      exact Bool.noConfusion (hc.symm.trans (hall _ (List.mem_cons_self _ _)))
  · cases madefd
    all_goals
      apply ext_of_eq
      · simp only [freedata_none, emit_trace, List.append_assoc, List.cons_append,
          List.nil_append, if_true, Bool.false_eq_true, if_false]
        rfl
      · intro hall
        have := hall _ (List.mem_cons_self _ _)
        simp [failedStep] at this

theorem dobind_clean (E : Env) (w : World) (fd : Int) (nconf : Option netconfig)
    (bindaddr : Option t_bind) (sendsz recvsz : Nat) (madefd : Bool) (si : __rpc_sockinfo) :
    ∃ evs, (svc_tli_dobind E w fd nconf bindaddr sendsz recvsz madefd si).2.trace =
        w.trace ++ evs ∧
      ((∀ e ∈ evs, failedStep e = false) →
        HandleFor nconf (svc_tli_dobind E w fd nconf bindaddr sendsz recvsz madefd si).1) := by
  unfold svc_tli_dobind
  split <;> dsimp only <;> split_ifs
  · cases madefd
    all_goals
      apply ext_of_eq
      · simp only [freedata_none, emit_trace, List.append_assoc, List.cons_append,
          List.nil_append, if_true, Bool.false_eq_true, if_false]
        rfl
      · intro hall
        have := hall _ (List.mem_cons_of_mem _ (List.mem_cons_of_mem _ (List.mem_cons_self _ _)))
        simp [failedStep] at this
  · refine after3 (xprt_clean E _ fd nconf sendsz recvsz madefd si) ?_
    intro evs h hall
    exact h fun e he => hall e (List.mem_cons_of_mem _ (List.mem_cons_of_mem _
      (List.mem_cons_of_mem _ he)))
  · refine after2 (xprt_clean E _ fd nconf sendsz recvsz madefd si) ?_
    intro evs h hall
    exact h fun e he => hall e (List.mem_cons_of_mem _ (List.mem_cons_of_mem _ he))
  · cases madefd
    all_goals
      apply ext_of_eq
      · simp only [freedata_none, emit_trace, List.append_assoc, List.cons_append,
          List.nil_append, if_true, Bool.false_eq_true, if_false]
        rfl
      · intro hall
        have := hall _ (List.mem_cons_of_mem _ (List.mem_cons_self _ _))
        simp [failedStep] at this
  · refine after2 (xprt_clean E _ fd nconf sendsz recvsz madefd si) ?_
    intro evs h hall
    exact h fun e he => hall e (List.mem_cons_of_mem _ (List.mem_cons_of_mem _ he))

theorem bind_clean (E : Env) (w : World) (fd : Int) (nconf : Option netconfig)
    (bindaddr : Option t_bind) (sendsz recvsz : Nat) (madefd : Bool) (si : __rpc_sockinfo) :
    ∃ evs, (svc_tli_bind E w fd nconf bindaddr sendsz recvsz madefd si).2.trace =
        w.trace ++ evs ∧
      ((∀ e ∈ evs, failedStep e = false) →
        HandleFor nconf (svc_tli_bind E w fd nconf bindaddr sendsz recvsz madefd si).1) := by
  unfold svc_tli_bind
  dsimp only
  split_ifs
  · exact dobind_clean E w fd nconf bindaddr sendsz recvsz madefd si
  · refine after1 (dobind_clean E _ fd nconf bindaddr sendsz recvsz madefd si) ?_
    intro evs h hall
    exact h fun e he => hall e (List.mem_cons_of_mem _ he)
  · refine after1 (xprt_clean E _ fd nconf sendsz recvsz madefd si) ?_
    intro evs h hall
    exact h fun e he => hall e (List.mem_cons_of_mem _ he)

theorem svc_tli_create_clean (E : Env) (w : World) (fd : Int)
    (nconf : Option netconfig) (bindaddr : Option t_bind) (sendsz recvsz : Nat) :
    ∃ evs, (svc_tli_create E w fd nconf bindaddr sendsz recvsz).2.trace = w.trace ++ evs ∧
      ((∀ e ∈ evs, failedStep e = false) →
        HandleFor nconf (svc_tli_create E w fd nconf bindaddr sendsz recvsz).1) := by
  unfold svc_tli_create
  split_ifs
  · split
    · exact ⟨[_], rfl, fun hall => by simpa [failedStep] using hall _ (List.mem_cons_self _ _)⟩
    · dsimp only
      split_ifs
      · apply ext_of_eq
        · simp only [emit_trace, List.append_assoc, List.cons_append, List.nil_append]
          rfl
        · intro hall
          have := hall _ (List.mem_cons_of_mem _ (List.mem_cons_self _ _))
          simp [failedStep] at this
      · refine after2 (bind_clean E _ _ _ bindaddr sendsz recvsz true _) ?_
        intro evs h hall
        exact h fun e he => hall e (List.mem_cons_of_mem _ (List.mem_cons_of_mem _ he))
  · split
    · apply ext_of_eq
      · simp only [emit_trace, List.append_assoc, List.cons_append, List.nil_append]
        rfl
      · intro hall
        have := hall _ (List.mem_cons_of_mem _ (List.mem_cons_self _ _))
        simp [failedStep] at this
    · refine after1 (bind_clean E _ _ _ bindaddr sendsz recvsz false _) ?_
      intro evs h hall
      exact h fun e he => hall e (List.mem_cons_of_mem _ he)

theorem svc_tp_create_clean (E : Env) (w : World) (dispatch prognum versnum : Nat)
    (nc : netconfig) :
    ∃ evs, (svc_tp_create E w dispatch prognum versnum (some nc)).2.trace = w.trace ++ evs ∧
      ((∀ e ∈ evs, failedStep e = false) →
        ∃ x, (svc_tp_create E w dispatch prognum versnum (some nc)).1 = some x ∧
          x.xp_netid = some nc.nc_netid) := by
  obtain ⟨evs, h1, h2⟩ := svc_tli_create_clean E w E.RPC_ANYFD (some nc) none 0 0
  unfold svc_tp_create
  dsimp only
  split
  · rename_i w1 heq
    rw [heq] at h1 h2
    refine ⟨evs, h1, fun hall => ?_⟩
    obtain ⟨x, hx, -⟩ := h2 hall
    simp at hx
  · rename_i x w1 heq
    rw [heq] at h1 h2
    simp only at h1 h2
    split_ifs with hreg
    · apply ext_of_eq
      · simp only [h1, emit_trace, List.append_assoc, List.cons_append, List.nil_append]
        rfl
      · intro hall
        have := hall (Ev.warnx "svc_tp_create: Could not register")
          (List.mem_append_right _ (List.mem_cons_of_mem _ (List.mem_cons_of_mem _
            (List.mem_cons_self _ _))))
        simp [failedStep] at this
    · apply ext_of_eq
      · simp only [h1, emit_trace, List.append_assoc, List.cons_append, List.nil_append]
        rfl
      · intro hall
        obtain ⟨y, hy, hid⟩ := h2 fun e he => hall e (List.mem_append_left _ he)
        exact ⟨x, rfl, by cases hy; exact hid nc rfl⟩

/-- The loop of `svc_create` in a run without a failed step: every provider
to come is new to the list and gets its handle. -/
theorem svc_create_loop_clean (E : Env) (dispatch prognum versnum : Nat)
    (ncs : List netconfig) : ∀ (w : World) (num : Nat) (evs : List Ev),
      (svc_create_loop E dispatch prognum versnum ncs w num).2.trace = w.trace ++ evs →
      (∀ e ∈ evs, failedStep e = false) →
      (∀ nc ∈ ncs, some nc.nc_netid ∉ w.xprtlist.map SVCXPRT.xp_netid) →
      (ncs.map netconfig.nc_netid).Nodup →
      (svc_create_loop E dispatch prognum versnum ncs w num).1 = num + ncs.length ∧
      (svc_create_loop E dispatch prognum versnum ncs w num).2.xprtlist.map SVCXPRT.xp_netid =
        (ncs.map fun nc => some nc.nc_netid).reverse ++ w.xprtlist.map SVCXPRT.xp_netid := by
  induction ncs with
  | nil => intro w num evs _ _ _ _; simp [svc_create_loop]
  | cons nc rest ih =>
    intro w num evs htr hall hfresh hnd
    have hfind : xlist_find ((w.emit (Ev.getconf (some nc))).emit Ev.mutex_lock).xprtlist
        nc.nc_netid = none := by
      rw [xlist_find_eq_none]
      simpa using hfresh nc (List.mem_cons_self _ _)
    obtain ⟨tevs, t1, t2⟩ := svc_tp_create_clean E
      ((w.emit (Ev.getconf (some nc))).emit Ev.mutex_lock) dispatch prognum versnum nc
    have hxl := svc_tp_create_xprtlist E ((w.emit (Ev.getconf (some nc))).emit Ev.mutex_lock)
      dispatch prognum versnum (some nc)
    rw [svc_create_loop] at htr ⊢
    simp only [hfind] at htr ⊢
    rcases hres : svc_tp_create E ((w.emit (Ev.getconf (some nc))).emit Ev.mutex_lock)
      dispatch prognum versnum (some nc) with ⟨_ | x, w2⟩
    · -- provisioning or registration failed: a failed step is among the events
      rw [hres] at htr t1 t2
      simp only [emit_trace, List.append_assoc, List.cons_append, List.nil_append] at htr t1
      obtain ⟨evs1, e1, -⟩ := svc_create_loop_provisions E dispatch prognum versnum rest
        (w2.emit Ev.mutex_unlock) num
      rw [e1] at htr
      simp only [emit_trace, List.append_assoc, List.cons_append, List.nil_append] at htr
      rw [t1] at htr
      simp only [List.append_assoc, List.cons_append, List.nil_append,
        List.append_cancel_left_eq] at htr
      subst htr
      obtain ⟨y, hy, -⟩ := t2 fun e he => hall e (by simp [he])
      simp at hy
    · rw [hres] at htr t1 t2 hxl
      simp only [emit_trace, emit_xprtlist, List.append_assoc, List.cons_append,
        List.nil_append] at htr t1 hxl ⊢
      cases hm : E.mem_alloc w2.trace
      · -- the allocation failed: the event is in the trace
        simp only [hm, if_true, emit_trace, List.append_assoc, List.cons_append,
          List.nil_append] at htr
        rw [t1] at htr
        simp only [List.append_assoc, List.cons_append, List.nil_append,
          List.append_cancel_left_eq] at htr
        subst htr
        have := hall (Ev.mem_alloc false) (by simp)
        simp [failedStep] at this
      · simp only [hm, Bool.true_eq_false, if_false] at htr ⊢
        obtain ⟨evs1, e1, -⟩ := svc_create_loop_provisions E dispatch prognum versnum rest
          (World.emit ⟨x :: w2.xprtlist, w2.trace ++ [Ev.mem_alloc true]⟩ Ev.mutex_unlock)
          (num + 1)
        have e2 := e1
        rw [htr] at e2
        simp only [emit_trace, List.append_assoc, List.cons_append, List.nil_append] at e2
        rw [t1] at e2
        simp only [List.append_assoc, List.cons_append, List.nil_append,
          List.append_cancel_left_eq] at e2
        subst e2
        obtain ⟨y, hy, hid⟩ := t2 fun e he => hall e (by simp [he])
        simp only [Option.some.injEq] at hy
        subst hy
        simp only [List.map_cons, List.nodup_cons] at hnd
        have := ih (World.emit ⟨x :: w2.xprtlist, w2.trace ++ [Ev.mem_alloc true]⟩
            Ev.mutex_unlock) (num + 1) evs1 e1
          (fun e he => hall e (by simp [he]))
          (by
            intro nc1 h1
            simp only [emit_xprtlist, List.map_cons, List.mem_cons, hid, Option.some.injEq, hxl,
              not_or]
            refine ⟨?_, hfresh nc1 (List.mem_cons_of_mem _ h1)⟩
            intro heq1
            exact hnd.1 (heq1 ▸ List.mem_map_of_mem _ h1))
          hnd.2
        refine ⟨by rw [this.1]; simp only [List.length_cons]; omega, ?_⟩
        rw [this.2]
        simp [hid, hxl]

/-! ### The sample environment -/

/-- In the sample environment a provisioned handle carries the identity of
its provider. -/
theorem envOk_carries : CarriesNetid envOk :=
  fun w nc x h => svc_tli_create_netid envOk (fun _ _ => rfl) w _ nc none 0 0 x h

/-! ## The claims -/

/-- Claim C1: starting from an empty `xprtlist`, when the selector yields
providers `ncs` with pairwise distinct network identities and no step of the
run fails (no diagnostic is emitted, as every failing open, bind,
registration and `mem_alloc` does; no transport constructor returns null; no
`rpc_strdup` fails), `svc_create` returns the number of providers, the list
then holds that many handles, one per enumerated identity (most recent
first), and the scan of the list finds a handle for a network identity
exactly when it is an enumerated one. -/
theorem svc_create_all_succeed (E : Env) (w : World) (dispatch prognum versnum : Nat)
    (nettype : String) (ncs : List netconfig)
    (hempty : w.xprtlist = [])
    (hset : E.__rpc_setconf w.trace nettype = some ncs)
    (hdistinct : (ncs.map netconfig.nc_netid).Nodup)
    (hok : ∀ e ∈ newEvents w (svc_create E w dispatch prognum versnum nettype).2,
      failedStep e = false) :
    (svc_create E w dispatch prognum versnum nettype).1 = ncs.length ∧
    (svc_create E w dispatch prognum versnum nettype).2.xprtlist.length = ncs.length ∧
    (svc_create E w dispatch prognum versnum nettype).2.xprtlist.map SVCXPRT.xp_netid =
      (ncs.map fun nc => some nc.nc_netid).reverse ∧
    ∀ netid, (xlist_find (svc_create E w dispatch prognum versnum nettype).2.xprtlist
      netid).isSome = true ↔ netid ∈ ncs.map netconfig.nc_netid := by
  have hsc : svc_create E w dispatch prognum versnum nettype =
      svc_create_loop E dispatch prognum versnum ncs (w.emit (Ev.setconf nettype true)) 0 := by
    unfold svc_create
    rw [hset]
  rw [hsc] at hok ⊢
  obtain ⟨evs, e1, -⟩ := svc_create_loop_provisions E dispatch prognum versnum ncs
    (w.emit (Ev.setconf nettype true)) 0
  have h := svc_create_loop_clean E dispatch prognum versnum ncs
    (w.emit (Ev.setconf nettype true)) 0 evs e1
    (fun e he => hok e (by simp [newEvents, e1, he]))
    (by simp [hempty]) hdistinct
  simp only [emit_xprtlist, hempty, List.map_nil, List.append_nil, Nat.zero_add] at h
  refine ⟨h.1, ?_, h.2, ?_⟩
  · have := congrArg List.length h.2
    simpa using this
  · intro netid
    rw [xlist_find_isSome, h.2]
    simp

/-- Witness for C1: the providers "udp" and "tcp" give the result 2 and a
list with exactly the identities "tcp" and "udp". -/
theorem svc_create_all_succeed_witness :
    world0.xprtlist = [] ∧
    envOk.__rpc_setconf world0.trace "visible" = some [udp, tcp] ∧
    (∀ e ∈ newEvents world0 (svc_create envOk world0 7 100000 1 "visible").2,
      failedStep e = false) ∧
    (svc_create envOk world0 7 100000 1 "visible").1 = 2 ∧
    (svc_create envOk world0 7 100000 1 "visible").2.xprtlist.length = 2 ∧
    (svc_create envOk world0 7 100000 1 "visible").2.xprtlist.map SVCXPRT.xp_netid =
      [some "tcp", some "udp"] ∧
    ∀ netid, (xlist_find (svc_create envOk world0 7 100000 1 "visible").2.xprtlist
      netid).isSome = true ↔ netid ∈ ["udp", "tcp"] :=
  ⟨rfl, rfl, by decide,
    svc_create_all_succeed envOk world0 7 100000 1 "visible" [udp, tcp] rfl rfl
      (by decide) (by decide)⟩

/-- Claim C3: `svc_create` preserves "no two handles on `xprtlist` have the
same network identity", for every list satisfying it, every enumerated
sequence (repetitions included) and every outcome of the external calls,
given that a provisioned handle carries the identity of its provider. -/
theorem svc_create_nodup (E : Env) (w : World) (dispatch prognum versnum : Nat)
    (nettype : String) (hinv : (w.xprtlist.map SVCXPRT.xp_netid).Nodup)
    (hcarry : CarriesNetid E) :
    ((svc_create E w dispatch prognum versnum nettype).2.xprtlist.map SVCXPRT.xp_netid).Nodup := by
  unfold svc_create
  split
  · simpa using hinv
  · exact svc_create_loop_nodup E dispatch prognum versnum hcarry _ _ _ (by simpa using hinv)

/-- Witness for C3: a list that already holds the handle for "udp", in the
sample environment. -/
theorem svc_create_nodup_witness :
    (worldUdp.xprtlist.map SVCXPRT.xp_netid).Nodup ∧
    CarriesNetid envOk ∧
    ((svc_create envOk worldUdp 7 100000 1 "visible").2.xprtlist.map SVCXPRT.xp_netid).Nodup :=
  ⟨by decide, envOk_carries,
    svc_create_nodup envOk worldUdp 7 100000 1 "visible" (by decide) envOk_carries⟩

/-- Claim C4: when `svc_tli_create` returns null, a descriptor it opened
itself (`fd` was `RPC_ANYFD` and `__rpc_nconf2fd` did not return -1) is
closed exactly once by the events of the call, a close by the destruction
of a handle included; a descriptor adopted from the caller is not closed. -/
theorem svc_tli_create_failure_closes (E : Env) (w : World) (fd : Int)
    (nconf : Option netconfig) (bindaddr : Option t_bind) (sendsz recvsz : Nat)
    (hfail : (svc_tli_create E w fd nconf bindaddr sendsz recvsz).1 = none) :
    (∀ nc, fd = E.RPC_ANYFD → nconf = some nc → E.__rpc_nconf2fd w.trace nc ≠ -1 →
      closeCount (E.__rpc_nconf2fd w.trace nc)
        (newEvents w (svc_tli_create E w fd nconf bindaddr sendsz recvsz).2) = 1) ∧
    (fd ≠ E.RPC_ANYFD →
      closeCount fd (newEvents w (svc_tli_create E w fd nconf bindaddr sendsz recvsz).2) = 0) := by
  constructor
  · intro nc hfd hnc hopen
    subst hfd hnc
    revert hfail
    unfold svc_tli_create
    simp only [if_true, if_neg hopen]
    intro hfail
    obtain ⟨evs, h1, h2⟩ := bind_closes E ((w.emit (Ev.nconf2fd nc (E.__rpc_nconf2fd w.trace nc))).emit
      (Ev.nconf2sockinfo nc)) (E.__rpc_nconf2fd w.trace nc) (some nc) bindaddr sendsz recvsz true
      (E.__rpc_nconf2sockinfo (w.emit (Ev.nconf2fd nc (E.__rpc_nconf2fd w.trace nc))).trace nc)
      (E.__rpc_nconf2fd w.trace nc)
    have h3 := h2 hfail
    simp only [newEvents, h1]
    simpa [closeCount, List.countP_cons, closesFd, ownCloses] using h3
  · intro hfd
    revert hfail
    unfold svc_tli_create
    simp only [if_neg hfd]
    split
    · intro _
      simp [newEvents, closeCount, List.countP_cons, closesFd]
    · rename_i si hsi
      intro hfail
      obtain ⟨evs, h1, h2⟩ := bind_closes E (w.emit (Ev.fd2sockinfo fd true)) fd nconf bindaddr
        sendsz recvsz false si fd
      have h3 := h2 hfail
      simp only [newEvents, h1]
      simpa [closeCount, List.countP_cons, closesFd, ownCloses] using h3

/-- Witness for C4: the datagram constructor fails on the opened descriptor 3
(one close); the connected-descriptor constructor fails on the adopted
descriptor 9 (no close). -/
theorem svc_tli_create_failure_closes_witness :
    ((svc_tli_create envDgFails world0 envDgFails.RPC_ANYFD (some udp) none 0 0).1 = none ∧
      closeCount 3 (newEvents world0
        (svc_tli_create envDgFails world0 envDgFails.RPC_ANYFD (some udp) none 0 0).2) = 1) ∧
    ((svc_tli_create envFdFails world0 9 none none 0 0).1 = none ∧
      closeCount 9 (newEvents world0
        (svc_tli_create envFdFails world0 9 none none 0 0).2) = 0) :=
  ⟨⟨by decide, (svc_tli_create_failure_closes envDgFails world0 envDgFails.RPC_ANYFD (some udp)
      none 0 0 (by decide)).1 udp rfl rfl (by decide)⟩,
    ⟨by decide, (svc_tli_create_failure_closes envFdFails world0 9 none none 0 0
      (by decide)).2 (by decide)⟩⟩

/-- Claim C6, as amended: when `svc_tli_create` is called with `RPC_ANYFD`
and no bind address and returns a handle, then on the opened descriptor a
reserved-port bind or the wildcard bind succeeded, `listen` was called with
`SOMAXCONN` (its result is not looked at), and the handle is the object a
transport constructor made on that descriptor.  This holds for every
provider, connection-oriented ones included. -/
theorem svc_tli_create_anyfd_bound (E : Env) (w : World) (nc : netconfig)
    (sendsz recvsz : Nat) (x : SVCXPRT)
    (h : (svc_tli_create E w E.RPC_ANYFD (some nc) none sendsz recvsz).1 = some x) :
    BoundAndListenCalled (E.__rpc_nconf2fd w.trace nc) E.SOMAXCONN
      (E.__rpc_nconf2sockinfo (w.trace ++ [Ev.nconf2fd nc (E.__rpc_nconf2fd w.trace nc)]) nc)
      sendsz recvsz x
      (newEvents w (svc_tli_create E w E.RPC_ANYFD (some nc) none sendsz recvsz).2) := by
  have key : ∃ evs, (svc_tli_create E w E.RPC_ANYFD (some nc) none sendsz recvsz).2.trace =
      w.trace ++ evs ∧ BoundAndListenCalled (E.__rpc_nconf2fd w.trace nc) E.SOMAXCONN
      (E.__rpc_nconf2sockinfo (w.trace ++ [Ev.nconf2fd nc (E.__rpc_nconf2fd w.trace nc)]) nc)
      sendsz recvsz x evs := by
    revert h
    unfold svc_tli_create
    simp only [if_true]
    split_ifs
    · simp
    · intro h
      unfold svc_tli_bind at h ⊢
      simp only [if_true] at h ⊢
      refine after2 (dobind_some _ _ _ _ _ _ _ _ _ h) ?_
      rintro evs ⟨hb, ⟨r, hl⟩, x0, ha, hf, hbo⟩
      refine ⟨?_, ⟨r, List.mem_cons_of_mem _ (List.mem_cons_of_mem _ hl)⟩, x0, ha, hf,
        builtOn_cons _ (builtOn_cons _ hbo)⟩
      rcases hb with ⟨r, h1, h2⟩ | ⟨r, h1, h2⟩
      · exact Or.inl ⟨r, h1, List.mem_cons_of_mem _ (List.mem_cons_of_mem _ h2)⟩
      · exact Or.inr ⟨r, h1, List.mem_cons_of_mem _ (List.mem_cons_of_mem _ h2)⟩
  obtain ⟨evs, h1, h2⟩ := key
  simpa [newEvents, h1] using h2

/-- Witness for C6: the provider "tcp" of the sample environment. -/
theorem svc_tli_create_anyfd_bound_witness :
    (svc_tli_create envOk world0 envOk.RPC_ANYFD (some tcp) none 0 0).1 = some xprtTcp ∧
    BoundAndListenCalled 4 128 siTcp 0 0 xprtTcp
      (newEvents world0 (svc_tli_create envOk world0 envOk.RPC_ANYFD (some tcp) none 0 0).2) :=
  ⟨by decide, svc_tli_create_anyfd_bound envOk world0 tcp 0 0 xprtTcp (by decide)⟩

/-- Counterexample to C6 as stated: for the connection-oriented provider
"tcp" the call returns a handle although no `listen` call succeeded. -/
theorem handle_returned_though_listen_failed :
    (envListenFails.__rpc_nconf2sockinfo [Ev.nconf2fd tcp 4] tcp).si_socktype =
      envListenFails.SOCK_STREAM ∧
    (svc_tli_create envListenFails world0 envListenFails.RPC_ANYFD (some tcp) none 0 0).1 =
      some xprtTcp ∧
    ∀ e ∈ newEvents world0
        (svc_tli_create envListenFails world0 envListenFails.RPC_ANYFD (some tcp) none 0 0).2,
      isListenOk e = false := by
  decide

/-- Claim C7, as amended: when a `bind` call of `svc_tli_create` fails (the
wildcard bind after a failed reserved-port bind, or the bind to the given
address), the call returns null and calls no transport constructor.  The
result of `listen` is not examined: a call in which no diagnostic is emitted
and no constructor returns null returns a handle, whatever `listen`
returned. -/
theorem svc_tli_create_bind_failure (E : Env) (w : World) (fd : Int)
    (nconf : Option netconfig) (bindaddr : Option t_bind) (sendsz recvsz : Nat) :
    ((∃ d a l r,
        Ev.bind d a l r ∈ newEvents w (svc_tli_create E w fd nconf bindaddr sendsz recvsz).2 ∧
          r < 0) →
      (svc_tli_create E w fd nconf bindaddr sendsz recvsz).1 = none ∧
        ∀ e ∈ newEvents w (svc_tli_create E w fd nconf bindaddr sendsz recvsz).2,
          isCtor e = false) ∧
    ((∀ e ∈ newEvents w (svc_tli_create E w fd nconf bindaddr sendsz recvsz).2,
        failedStep e = false) →
      ∃ x, (svc_tli_create E w fd nconf bindaddr sendsz recvsz).1 = some x) := by
  constructor
  · intro hbind
    obtain ⟨evs, h1, h2⟩ := svc_tli_create_bind_fatal E w fd nconf bindaddr sendsz recvsz
    simp only [newEvents, h1, List.drop_left] at hbind ⊢
    exact h2 hbind
  · intro hok
    obtain ⟨evs, h1, h2⟩ := svc_tli_create_clean E w fd nconf bindaddr sendsz recvsz
    simp only [newEvents, h1, List.drop_left] at hok
    obtain ⟨x, hx, -⟩ := h2 hok
    exact ⟨x, hx⟩

/-- Witness for C7: both binds fail for the provider "tcp" (null, no
constructor call); with only `listen` failing no step counts as failed and
the handle is returned. -/
theorem svc_tli_create_bind_failure_witness :
    ((∃ d a l r,
      Ev.bind d a l r ∈ newEvents world0
        (svc_tli_create envBindFails world0 envBindFails.RPC_ANYFD (some tcp) none 0 0).2 ∧
        r < 0) ∧
      (svc_tli_create envBindFails world0 envBindFails.RPC_ANYFD (some tcp) none 0 0).1 = none ∧
      ∀ e ∈ newEvents world0
          (svc_tli_create envBindFails world0 envBindFails.RPC_ANYFD (some tcp) none 0 0).2,
        isCtor e = false) ∧
    ((∀ e ∈ newEvents world0
          (svc_tli_create envListenFails world0 envListenFails.RPC_ANYFD (some tcp) none 0 0).2,
        failedStep e = false) ∧
      ∃ x, (svc_tli_create envListenFails world0 envListenFails.RPC_ANYFD (some tcp) none 0
        0).1 = some x) :=
  ⟨⟨⟨4, { sa_family := 2, sa_data := [] }, 16, -1, by decide, by decide⟩,
      (svc_tli_create_bind_failure envBindFails world0 envBindFails.RPC_ANYFD (some tcp) none 0
        0).1 ⟨4, { sa_family := 2, sa_data := [] }, 16, -1, by decide, by decide⟩⟩,
    ⟨by decide,
      (svc_tli_create_bind_failure envListenFails world0 envListenFails.RPC_ANYFD (some tcp)
        none 0 0).2 (by decide)⟩⟩

/-- Counterexample to C7 as stated: `listen(4, 5)` is attempted and returns
-1, and the call still returns the handle made by `svc_vc_create`. -/
theorem listen_failure_is_not_fatal :
    Ev.listen 4 5 (-1) ∈ newEvents world0
      (svc_tli_create envListenFails world0 envListenFails.RPC_ANYFD (some tcp)
        (some addr111) 0 0).2 ∧
    (svc_tli_create envListenFails world0 envListenFails.RPC_ANYFD (some tcp)
      (some addr111) 0 0).1 = some xprtTcp ∧
    Ev.svc_vc_create 4 0 0 (some (mkXprt 4)) ∈ newEvents world0
      (svc_tli_create envListenFails world0 envListenFails.RPC_ANYFD (some tcp)
        (some addr111) 0 0).2 := by
  decide

/-- Claim C8: when `svc_tp_create` is called with a provider, provisioning
returns the handle `x` and `svc_reg` returns false, the call returns null,
the only handle it destroys is `x`, and `xprtlist` is unchanged; and no call
of `svc_tp_create` whatsoever changes `xprtlist`. -/
theorem svc_tp_create_registration_failure (E : Env) (w : World)
    (dispatch prognum versnum : Nat) (nc : netconfig) (x : SVCXPRT) (w1 : World)
    (hprov : svc_tli_create E w E.RPC_ANYFD (some nc) none 0 0 = (some x, w1))
    (hreg : E.svc_reg (w1.trace ++ [Ev.rpcb_unset prognum versnum nc]) x prognum versnum
      dispatch nc = false) :
    (svc_tp_create E w dispatch prognum versnum (some nc)).1 = none ∧
    (newEvents w (svc_tp_create E w dispatch prognum versnum (some nc)).2).filter isDestroy =
      [Ev.destroy x] ∧
    (svc_tp_create E w dispatch prognum versnum (some nc)).2.xprtlist = w.xprtlist ∧
    ∀ nconf, (svc_tp_create E w dispatch prognum versnum nconf).2.xprtlist = w.xprtlist := by
  have hres : svc_tp_create E w dispatch prognum versnum (some nc) =
      (none, (((w1.emit (Ev.rpcb_unset prognum versnum nc)).emit
        (Ev.svc_reg x prognum versnum dispatch nc false)).emit
        (Ev.warnx "svc_tp_create: Could not register")).emit (Ev.destroy x)) := by
    unfold svc_tp_create
    simp [hprov, hreg]
  refine ⟨by rw [hres], ?_, svc_tp_create_xprtlist _ _ _ _ _ _,
    fun nconf => svc_tp_create_xprtlist _ _ _ _ _ _⟩
  obtain ⟨evs, h1, h2⟩ := svc_tli_create_events E w E.RPC_ANYFD (some nc) none 0 0
  rw [hprov] at h1
  simp only at h1
  have h3 : evs.filter isDestroy = [] := by
    rw [List.filter_eq_nil_iff]
    intro e he
    simp [isDestroy_tliEv _ e (h2 e he)]
  rw [hres]
  simp [newEvents, h1, h3, isDestroy, List.filter_cons]

/-- Witness for C8: registration is refused for "udp". -/
theorem svc_tp_create_registration_failure_witness :
    svc_tli_create envRegFails world0 envRegFails.RPC_ANYFD (some udp) none 0 0 =
      (some xprtUdp,
        (svc_tli_create envRegFails world0 envRegFails.RPC_ANYFD (some udp) none 0 0).2) ∧
    (svc_tp_create envRegFails world0 7 100000 1 (some udp)).1 = none ∧
    (newEvents world0 (svc_tp_create envRegFails world0 7 100000 1 (some udp)).2).filter
      isDestroy = [Ev.destroy xprtUdp] ∧
    (svc_tp_create envRegFails world0 7 100000 1 (some udp)).2.xprtlist = world0.xprtlist ∧
    ∀ nconf, (svc_tp_create envRegFails world0 7 100000 1 nconf).2.xprtlist = world0.xprtlist :=
  ⟨by decide, svc_tp_create_registration_failure envRegFails world0 7 100000 1 udp xprtUdp
    (svc_tli_create envRegFails world0 envRegFails.RPC_ANYFD (some udp) none 0 0).2
    (by decide) rfl⟩

/-- Claim C9, the code at the failing input: the handle for "udp" is made by
`svc_dg_create` and registered, `mem_alloc` then fails; `svc_create`
returns 0 with an empty `xprtlist`, and no event of the call destroys the
handle. -/
theorem no_memory_leaves_handle_live :
    (svc_create envNoMem world0 7 100000 1 "visible").1 = 0 ∧
    (svc_create envNoMem world0 7 100000 1 "visible").2.xprtlist = [] ∧
    Ev.svc_dg_create 3 0 0 (some (mkXprt 3)) ∈
      (svc_create envNoMem world0 7 100000 1 "visible").2.trace ∧
    Ev.svc_reg xprtUdp 100000 1 7 udp true ∈
      (svc_create envNoMem world0 7 100000 1 "visible").2.trace ∧
    Ev.mem_alloc false ∈ (svc_create envNoMem world0 7 100000 1 "visible").2.trace ∧
    ∀ e ∈ (svc_create envNoMem world0 7 100000 1 "visible").2.trace, isDestroy e = false := by
  decide

/-- Claim C10, as amended: whatever the socket type, `svc_tli_create` calls
`listen` once after each bind step that succeeded and nowhere else: the
number of `listen` calls of a call equals the number of its successful
`bindresvport` and `bind` calls.  So a call on a datagram descriptor makes
no `listen` call exactly when no bind succeeded in it; in particular none
is made for an adopted descriptor that is already bound. -/
theorem svc_tli_create_listen_iff_bound (E : Env) (w : World) (fd : Int)
    (nconf : Option netconfig) (bindaddr : Option t_bind) (sendsz recvsz : Nat) :
    (newEvents w (svc_tli_create E w fd nconf bindaddr sendsz recvsz).2).countP isListen =
      (newEvents w (svc_tli_create E w fd nconf bindaddr sendsz recvsz).2).countP isBindOk ∧
    (fd ≠ E.RPC_ANYFD →
      E.__rpc_sockisbound (w.trace ++ [Ev.fd2sockinfo fd true]) fd = true →
      (newEvents w (svc_tli_create E w fd nconf bindaddr sendsz recvsz).2).countP isListen =
        0) := by
  constructor
  · obtain ⟨evs, h1, h2⟩ := svc_tli_create_listen_count E w fd nconf bindaddr sendsz recvsz
    simpa [newEvents, h1] using h2
  · intro hfd hbound
    obtain ⟨evs, h1, h2⟩ := svc_tli_create_bound_no_listen E w fd nconf bindaddr sendsz recvsz
      hfd hbound
    simpa [newEvents, h1] using h2

/-- Witness for C10: the adopted, bound datagram descriptor 8 gets no
`listen` call. -/
theorem svc_tli_create_listen_iff_bound_witness :
    (8 : Int) ≠ envDgram.RPC_ANYFD ∧
    envDgram.__rpc_fd2sockinfo world0.trace 8 = some siDgram ∧
    siDgram.si_socktype = envDgram.SOCK_DGRAM ∧
    envDgram.__rpc_sockisbound (world0.trace ++ [Ev.fd2sockinfo 8 true]) 8 = true ∧
    (newEvents world0 (svc_tli_create envDgram world0 8 none none 0 0).2).countP isListen = 0 :=
  ⟨by decide, rfl, rfl, rfl,
    (svc_tli_create_listen_iff_bound envDgram world0 8 none none 0 0).2 (by decide) rfl⟩

/-- Counterexample to C10 as stated: for the datagram provider "udp" the
call makes a `listen` call on the descriptor, without a bind address
(backlog `SOMAXCONN`) and with one (backlog 5). -/
theorem datagram_descriptor_gets_listen :
    (envOk.__rpc_nconf2sockinfo [Ev.nconf2fd udp 3] udp).si_socktype = envOk.SOCK_DGRAM ∧
    newEvents world0 (svc_tli_create envOk world0 envOk.RPC_ANYFD (some udp) none 0 0).2 =
      [Ev.nconf2fd udp 3, Ev.nconf2sockinfo udp, Ev.bindresvport 3 0, Ev.listen 3 128 0,
        Ev.svc_dg_create 3 0 0 (some (mkXprt 3)), Ev.rpc_strdup "udp" true,
        Ev.rpc_strdup "-" true] ∧
    newEvents world0
        (svc_tli_create envOk world0 envOk.RPC_ANYFD (some udp) (some addr111) 0 0).2 =
      [Ev.nconf2fd udp 3, Ev.nconf2sockinfo udp, Ev.bind 3 addr111.addr 16 0, Ev.listen 3 5 0,
        Ev.svc_dg_create 3 0 0 (some (mkXprt 3)), Ev.rpc_strdup "udp" true,
        Ev.rpc_strdup "-" true] := by
  decide

end SvcGeneric
